import Mathlib

/-!
Verification development for the timeline subsystem of `f1-race-intelligence`
(`src/f1_race_intelligence/rag/timeline.py` and `src/f1_race_intelligence/rag/schemas.py`).

The Python code is embedded shallowly: dictionaries with known key sets become
structures whose fields are `Option`-valued where the code reads them with
`dict.get`, Python truthiness is modelled explicitly, `try/except` blocks that
the code uses to swallow exceptions become `Except`-valued helpers, and the
builder's `self.debug_info` attribute is threaded as explicit state.
Strings are compared and transformed by character-list functions so that the
kernel can evaluate them; the inputs handled here are ASCII, matching the
telemetry texts the code processes.
-/

/- ---------------------------------------------------------------------------
String primitives (models of the Python `str` operations used by timeline.py)
--------------------------------------------------------------------------- -/

/-- ASCII lower-casing of one character, as Python `str.lower` acts on the
ASCII texts handled by the module. -/
def asciiLower (c : Char) : Char :=
  if ('A' ≤ c ∧ c ≤ 'Z') then Char.ofNat (c.toNat + 32) else c

/-- ASCII upper-casing of one character, as Python `str.upper` acts on the
ASCII texts handled by the module. -/
def asciiUpper (c : Char) : Char :=
  if ('a' ≤ c ∧ c ≤ 'z') then Char.ofNat (c.toNat - 32) else c

/-- Python `s.lower()` (ASCII fragment). -/
def pyLower (s : String) : String := ⟨s.data.map asciiLower⟩

/-- Python `s.upper()` (ASCII fragment). -/
def pyUpper (s : String) : String := ⟨s.data.map asciiUpper⟩

/-- Whitespace test used by `pyStrip`; covers the whitespace that occurs in the
texts the module handles. -/
def wsp (c : Char) : Bool := c == ' ' || c == '\t' || c == '\n' || c == '\r'

/-- Python `s.strip()`. -/
def pyStrip (s : String) : String :=
  ⟨((s.data.dropWhile wsp).reverse.dropWhile wsp).reverse⟩

/-- Python slicing `s[:n]` (code points). -/
def pyTake (s : String) (n : Nat) : String := ⟨s.data.take n⟩

/-- `listIsPre need hay` is true when `need` is an initial segment of `hay`. -/
def listIsPre : List Char → List Char → Bool
  | [], _ => true
  | _ :: _, [] => false
  | a :: as, b :: bs => (a == b) && listIsPre as bs

/-- Helper for `strContains`: scans the haystack left to right. -/
def containsAux : List Char → List Char → Bool
  | [], need => need.isEmpty
  | h :: t, need => listIsPre need (h :: t) || containsAux t need

/-- Python `need in hay` on strings. -/
def strContains (hay need : String) : Bool := containsAux hay.data need.data

/-- Lexicographic `≤` on character lists by code point, matching how Python
compares strings. -/
def charListLe : List Char → List Char → Bool
  | [], _ => true
  | _ :: _, [] => false
  | a :: as, b :: bs => if a < b then true else if b < a then false else charListLe as bs

/-- Python `<=` on strings (code-point lexicographic). -/
def pyStrLe (a b : String) : Bool := charListLe a.data b.data

/- ---------------------------------------------------------------------------
Python truthiness and `dict.get` rendering helpers
--------------------------------------------------------------------------- -/

/-- Truthiness of an optional integer: Python treats `None` and `0` as falsy. -/
def pyIntTruthy : Option Int → Bool
  | some n => n != 0
  | none => false

/-- Keeps an optional string only when Python would treat it as truthy
(`None` and the empty string are falsy). -/
def truthyStr : Option String → Option String
  | some s => if s = "" then none else some s
  | none => none

/-- Truthiness filter on an optional list: Python treats `None` and `[]` as
falsy.  Returns the list exactly when it is truthy. -/
def pyTruthyList : Option (List α) → Option (List α)
  | some (x :: xs) => some (x :: xs)
  | _ => none

/-- Rendering of an optional string inside a Python f-string: `None` prints as
`"None"`. -/
def optStrRepr : Option String → String
  | some s => s
  | none => "None"

/-- Rendering of an optional integer inside a Python f-string: `None` prints as
`"None"`. -/
def optIntStr : Option Int → String
  | some n => toString n
  | none => "None"

/- ---------------------------------------------------------------------------
Association lists modelling Python dictionaries (insertion-ordered; key
assignment replaces the value in place, as `dict.__setitem__` does)
--------------------------------------------------------------------------- -/

/-- `m[k] = v` on an insertion-ordered dictionary: replaces in place if the key
exists, appends otherwise. -/
def dictSet [DecidableEq κ] : List (κ × β) → κ → β → List (κ × β)
  | [], k, v => [(k, v)]
  | (k0, v0) :: rest, k, v =>
      if k0 = k then (k, v) :: rest else (k0, v0) :: dictSet rest k v

/-- `m.get(k)` on an insertion-ordered dictionary. -/
def dictGet? [DecidableEq κ] : List (κ × β) → κ → Option β
  | [], _ => none
  | (k0, v0) :: rest, k => if k0 = k then some v0 else dictGet? rest k

/-- `defaultdict(list)` append: `m[k].append(v)`, creating the entry (at the
end, preserving insertion order) when absent. -/
def groupAppend [DecidableEq κ] : List (κ × List β) → κ → β → List (κ × List β)
  | [], k, v => [(k, [v])]
  | (k0, vs) :: rest, k, v =>
      if k0 = k then (k0, vs ++ [v]) :: rest else (k0, vs) :: groupAppend rest k v

/- ---------------------------------------------------------------------------
Data model (rag/schemas.py)
--------------------------------------------------------------------------- -/

/-- Values stored in the untyped `payload` dictionaries attached to evidence
records (`Dict[str, Any]` in schemas.py). -/
inductive PyVal where
  | pnone : PyVal
  | pstr : String → PyVal
  | pint : Int → PyVal
  | pbool : Bool → PyVal
  | pdict : List (String × PyVal) → PyVal
  | plist : List PyVal → PyVal

/-- `TimelineEventType` (rag/schemas.py:169-179).  These nine members are the
complete enum: schemas.py defines no `STRATEGY`, `OVERTAKE`, `GRID` or
`RESULT` member, although timeline.py references all four. -/
inductive TimelineEventType where
  | SAFETY_CAR
  | VIRTUAL_SC
  | RED_FLAG
  | YELLOW_FLAG
  | PIT_STOP
  | WEATHER
  | INCIDENT
  | PACE_CHANGE
  | INFO
deriving DecidableEq, Repr

/-- The `str` value of each enum member (rag/schemas.py:171-179). -/
def TimelineEventType.value : TimelineEventType → String
  | .SAFETY_CAR => "SC"
  | .VIRTUAL_SC => "VSC"
  | .RED_FLAG => "RED"
  | .YELLOW_FLAG => "YELLOW"
  | .PIT_STOP => "PIT"
  | .WEATHER => "WEATHER"
  | .INCIDENT => "INCIDENT"
  | .PACE_CHANGE => "PACE"
  | .INFO => "INFO"

/-- Python attribute lookup `TimelineEventType.<name>` on the enum class:
`some` for the nine members defined in rag/schemas.py:169-179, `none`
(an `AttributeError` at runtime) for any other name.  timeline.py:662, 1263,
1347 and 1443 access the names `STRATEGY`, `OVERTAKE`, `GRID` and `RESULT`,
none of which exist. -/
def tetAttr : String → Option TimelineEventType
  | "SAFETY_CAR" => some .SAFETY_CAR
  | "VIRTUAL_SC" => some .VIRTUAL_SC
  | "RED_FLAG" => some .RED_FLAG
  | "YELLOW_FLAG" => some .YELLOW_FLAG
  | "PIT_STOP" => some .PIT_STOP
  | "WEATHER" => some .WEATHER
  | "INCIDENT" => some .INCIDENT
  | "PACE_CHANGE" => some .PACE_CHANGE
  | "INFO" => some .INFO
  | _ => none

/-- Python enum construction by value `TimelineEventType(s)`: `none` models the
`ValueError` raised for an unknown value (timeline.py:173-176 catches it and
falls back to INFO). -/
def tetOfValue : String → Option TimelineEventType
  | "SC" => some .SAFETY_CAR
  | "VSC" => some .VIRTUAL_SC
  | "RED" => some .RED_FLAG
  | "YELLOW" => some .YELLOW_FLAG
  | "PIT" => some .PIT_STOP
  | "WEATHER" => some .WEATHER
  | "INCIDENT" => some .INCIDENT
  | "PACE" => some .PACE_CHANGE
  | "INFO" => some .INFO
  | _ => none

/-- `PDFCitation` (rag/schemas.py:153-158).  The similarity score, a Python
float in `[0,1]`, is modelled as an exact rational; no code path computes
with it. -/
structure PDFCitation where
  chunk_id : String
  snippet : String
  similarity_score : ℚ
  page_num : Option Int
deriving DecidableEq

/-- `OpenF1Evidence` (rag/schemas.py:161-166). -/
structure OpenF1Evidence where
  evidence_type : String
  evidence_id : Option String
  snippet : String
  payload : PyVal

/-- `TimelineItem` (rag/schemas.py:182-214). -/
structure TimelineItem where
  lap : Option Int
  timestamp : Option String
  event_type : TimelineEventType
  title : String
  description : String
  pdf_citations : List PDFCitation
  openf1_evidence : List OpenF1Evidence
  impacted_drivers : List String
  impact_summary : String
  confidence : String

/- ---------------------------------------------------------------------------
Telemetry record shapes, as read by timeline.py via `dict.get`
--------------------------------------------------------------------------- -/

/-- A race-control message record (fields read at timeline.py:463-511). -/
structure RCMessage where
  message : Option String
  lap : Option Int
  time : Option String
  message_id : Option String
deriving DecidableEq

/-- A pit-stop record (fields read at timeline.py:561-592 and 946-962).
`driver_name` is modelled as a present string: the records this repository
produces always carry it, and a record lacking it would make
`compute_impact` raise a `TypeError` in the join at timeline.py:959 — a crash
path outside this model.  Consequently the `dict.get` defaults
`"Unknown"` (timeline.py:572) are unreachable here. -/
structure PitRec where
  driver_name : String
  compound : Option String
  lap : Option Int
  time : Option String
  pit_stop_id : Option String
deriving DecidableEq

/-- A stint record (fields read at timeline.py:637-678). -/
structure StintRec where
  driver_name : Option String
  driver_number : Option Int
  compound : Option String
  lap_start : Option Int
deriving DecidableEq

/-- A lap record (fields read at timeline.py:718-851 and 976-991).
`driver_name` is modelled as a present string (same rationale as `PitRec`),
and `lap_time_ms` as a present integer with `0` standing for the falsy values
the code filters with `if not lap_time` (timeline.py:729): a record whose
`lap_time_ms` is `None` would crash `compute_impact`'s average at
timeline.py:985, a path outside this model. -/
structure LapRec where
  driver_name : String
  driver_number : Option Int
  lap_number : Option Int
  lap_time_ms : Int
  position : Option Int
deriving DecidableEq

/-- A weather reading (fields read at timeline.py:1147-1197).  Temperatures
are only interpolated into description strings; integer-valued readings are
modelled. -/
structure WeatherRec where
  rainfall : Option Int
  track_temperature : Option Int
  air_temperature : Option Int
  date : Option String
deriving DecidableEq

/-- An overtake record (fields read at timeline.py:1252-1272). -/
structure OvertakeRec where
  overtaking_driver_number : Option Int
  overtaken_driver_number : Option Int
  position : Option Int
  date : Option String
deriving DecidableEq

/-- A driver record (fields read at timeline.py:1249-1250). -/
structure DriverRec where
  driver_number : Option Int
  name_acronym : Option String
  broadcast_name : Option String
deriving DecidableEq

/-- A starting-grid record (fields read at timeline.py:1334-1341). -/
structure GridRec where
  driver_number : Option Int
  position : Option Int
deriving DecidableEq

/-- A session-result record (fields read at timeline.py:1420-1434).
`gap_to_leader` is only interpolated into a description string; integer gaps
are modelled. -/
structure ResultRec where
  driver_number : Option Int
  position : Option Int
  gap_to_leader : Option Int
  dnf : Option Bool
deriving DecidableEq

/-- A session record as returned by `search_sessions` (fields read at
timeline.py:258-321 and 449). -/
structure Session where
  session_id : Option String
  session_key : Option String
  gp_name : Option String
  year : Option Int
  session_type : Option String
  session_date : Option String
deriving DecidableEq

/-- The `session_metadata` dictionary handed to `build_openf1_timeline`
(timeline.py:228-230): `none` models an absent key. -/
structure SessionMetadata where
  year : Option Int
  gp_name : Option String
  session_type : Option String
deriving DecidableEq

/-- The `matched_session` sub-dictionary of the builder's debug info
(timeline.py:313-318). -/
structure MatchedSession where
  gp_name : Option String
  year : Option Int
  session_type : Option String
  session_date : Option String
deriving DecidableEq

/-- The builder's `self.debug_info` dictionary as written at
timeline.py:285-292 (failure) and timeline.py:307-319 (success).  The failure
shape has an `error` key and no `matched_session`; the success shape has a
`matched_session` and no `error`; absent keys are `none`. -/
structure DebugInfo where
  detected_year : Int
  detected_gp : String
  detected_session_type : String
  session_id : Option String
  session_found : Bool
  error_msg : Option String
  matched_session : Option MatchedSession
deriving DecidableEq

/-- The OpenF1 client capability as consumed by timeline.py.  The methods the
code guards with `hasattr` (timeline.py:1123, 1225, 1247, 1306, 1392) are
`Option`-valued: `none` models a client without that method. -/
structure OpenF1Client where
  search_sessions : Int → Option String → Option String → List Session
  get_race_control_messages : String → List RCMessage
  get_pit_stops : String → List PitRec
  get_stints : String → List StintRec
  get_laps : String → List LapRec
  get_weather_q : Option (String → List WeatherRec)
  get_overtakes_q : Option (String → List OvertakeRec)
  get_drivers_q : Option (String → List DriverRec)
  get_starting_grid_q : Option (String → List GridRec)
  get_session_result_q : Option (String → List ResultRec)

/-- One telemetry fetch performed against the client; used to record, in
order, every client call a computation makes. -/
inductive ApiCall where
  | searchSessions : Int → Option String → Option String → ApiCall
  | getRaceControlMessages : String → ApiCall
  | getPitStops : String → ApiCall
  | getStints : String → ApiCall
  | getLaps : String → ApiCall
  | getWeather : String → ApiCall
  | getOvertakes : String → ApiCall
  | getDrivers : String → ApiCall
  | getStartingGrid : String → ApiCall
  | getSessionResult : String → ApiCall
deriving DecidableEq

/-- A retrieved chunk as consumed by `_event_to_timeline_item`
(timeline.py:184-190): its id, content, and the `page_num` entry of its
metadata. -/
structure Chunk where
  id : String
  content : String
  page_num : Option Int
deriving DecidableEq

/-- One candidate event parsed from the LLM's JSON array
(timeline.py:165-170): `none` models an absent key. -/
structure EventData where
  lap : Option Int
  event_type : Option String
  title : Option String
  description : Option String
  search_query : Option String
deriving DecidableEq

/-- The result of `build_openf1_timeline`: the extracted events, the builder's
`debug_info` state after the call, and the telemetry calls made. -/
structure BuildResult where
  events : List TimelineItem
  debug : Option DebugInfo
  calls : List ApiCall

/- ---------------------------------------------------------------------------
Merge (TimelineBuilder.merge_timelines, timeline.py:858-921)
--------------------------------------------------------------------------- -/

/-- `normalize_description` (timeline.py:878-883): first 50 characters of the
description, lower-cased and stripped; empty descriptions normalize to "". -/
def normalize_description (desc : String) : String :=
  if desc = "" then "" else pyStrip (pyLower (pyTake desc 50))

/-- The deduplication key used by `merge_timelines` (timeline.py:888, 894):
`(lap, event_type.value, normalized description)`.  The source's
`if item.event_type else "UNKNOWN"` guard is unreachable — `event_type` is a
required field of `TimelineItem` — and is therefore not modelled. -/
def mergeKey (item : TimelineItem) : Option Int × String × String :=
  (item.lap, item.event_type.value, normalize_description item.description)

/-- Merging a colliding PDF item into an existing entry (timeline.py:896-904):
extend both provenance lists and bump confidence only when the PDF item's
confidence is exactly "High". -/
def mergeExisting (existing pdf_item : TimelineItem) : TimelineItem :=
  { existing with
    pdf_citations := existing.pdf_citations ++ pdf_item.pdf_citations,
    openf1_evidence := existing.openf1_evidence ++ pdf_item.openf1_evidence,
    confidence := if pdf_item.confidence = "High" then "High" else existing.confidence }

/-- The sort key of the final ordering (timeline.py:911-914):
`(lap if lap is not None else 999999, str(event_type.value))`. -/
def sortKey (x : TimelineItem) : Int × String :=
  (match x.lap with
   | some n => n
   | none => 999999, x.event_type.value)

/-- Boolean lexicographic `≤` on sort keys, matching Python tuple comparison. -/
def sortLeB (a b : TimelineItem) : Bool :=
  if (sortKey a).1 < (sortKey b).1 then true
  else if (sortKey a).1 = (sortKey b).1 then pyStrLe (sortKey a).2 (sortKey b).2
  else false

/-- The ordering relation of the final sort. -/
def sortRel (a b : TimelineItem) : Prop := sortLeB a b = true

instance : DecidableRel sortRel := fun a b => instDecidableEqBool (sortLeB a b) true

/-- `merge_timelines` (timeline.py:858-921).  OpenF1 items are inserted first
into an insertion-ordered dictionary (a later OpenF1 item with the same key
overwrites the earlier one, timeline.py:886-890); PDF items then either merge
into an existing entry or are inserted as new (timeline.py:893-908); finally
the values are sorted by `sortKey` (timeline.py:911-914).  Python's `sorted`
is stable; it is modelled by insertion sort, which is also stable.  The
`dedup_counts` bookkeeping of the source is logging-only and not modelled. -/
def merge_timelines (pdf_items openf1_items : List TimelineItem) : List TimelineItem :=
  let merged0 := openf1_items.foldl
    (fun m item => dictSet m (mergeKey item) item) []
  let merged1 := pdf_items.foldl
    (fun m item =>
      match dictGet? m (mergeKey item) with
      | some existing => dictSet m (mergeKey item) (mergeExisting existing item)
      | none => m ++ [(mergeKey item, item)]) merged0
  List.insertionSort sortRel (merged1.map (fun kv => kv.2))

/- ---------------------------------------------------------------------------
Impact computation (TimelineBuilder.compute_impact, timeline.py:923-1023)
--------------------------------------------------------------------------- -/

/-- `sorted(...)` on a list of strings, as Python sorts strings. -/
def pySortedStrings (xs : List String) : List String :=
  List.insertionSort (fun a b => pyStrLe a b = true) xs

/-- The SC/VSC branch of `compute_impact` (timeline.py:946-964), entered only
when `pit_data` is truthy: collects the drivers who pitted within two laps of
the event, overwrites `impacted_drivers` with the deduplicated list
(`list(set(...))` — Python set order is unspecified; first-occurrence order is
used here), and fills the summary.  Note the `else` arm leaves confidence
unchanged. -/
def impact_sc (item : TimelineItem) (pit_data : List PitRec) : TimelineItem :=
  let pit_drivers := (pit_data.filter (fun p =>
      pyIntTruthy p.lap && pyIntTruthy item.lap &&
      decide (item.lap.getD 0 - 2 ≤ p.lap.getD 0 ∧ p.lap.getD 0 ≤ item.lap.getD 0 + 2))).map
    (fun p => p.driver_name)
  let item1 := { item with impacted_drivers := pit_drivers.eraseDups }
  if pit_drivers ≠ [] then
    { item1 with
      impact_summary := "Benefited: " ++
        String.intercalate ", " (pySortedStrings pit_drivers.eraseDups) ++
        " (pitted during " ++ item.event_type.value ++ ")",
      confidence := "High" }
  else
    { item1 with impact_summary := "No drivers pitted during this period" }

/-- One step of the PIT branch's per-driver loop (timeline.py:976-991):
gathers the driver's lap times in the window `[lap-1, lap+3]`, and classifies
the driver as benefited/hurt when the last gathered time is at least 5%
faster/slower than the mean of the earlier ones.  Python's float arithmetic
is modelled by exact rationals. -/
def pitDriverStep (item : TimelineItem) (laps_data : List LapRec)
    (bl : List String × List String) (driver : String) : List String × List String :=
  let pit_lap_times := (laps_data.filter (fun l =>
      l.driver_name == driver && pyIntTruthy l.lap_number && pyIntTruthy item.lap &&
      decide (item.lap.getD 0 - 1 ≤ l.lap_number.getD 0 ∧
              l.lap_number.getD 0 ≤ item.lap.getD 0 + 3))).map
    (fun l => l.lap_time_ms)
  if pit_lap_times.length > 1 then
    let avg_before : ℚ :=
      if pit_lap_times.length > 1 then
        ((pit_lap_times.dropLast.foldl (· + ·) 0 : Int) : ℚ) /
          ((pit_lap_times.dropLast.length : Int) : ℚ)
      else ((pit_lap_times.headI : Int) : ℚ)
    let last_time : ℚ := ((pit_lap_times.getLast?.getD 0 : Int) : ℚ)
    if last_time < avg_before * (95 / 100) then (bl.1 ++ [driver], bl.2)
    else if last_time > avg_before * (105 / 100) then (bl.1, bl.2 ++ [driver])
    else bl
  else bl

/-- The PIT branch of `compute_impact` when both pit and lap data are truthy
(timeline.py:968-1004). -/
def impact_pit_full (item : TimelineItem) (laps_data : List LapRec) : TimelineItem :=
  let pit_drivers := item.impacted_drivers
  let bl := pit_drivers.foldl (pitDriverStep item laps_data) ([], [])
  let impact_parts :=
    (if bl.1 ≠ [] then ["Benefited: " ++ String.intercalate ", " bl.1] else []) ++
    (if bl.2 ≠ [] then ["Hurt: " ++ String.intercalate ", " bl.2] else [])
  { item with
    impact_summary :=
      if impact_parts ≠ [] then String.intercalate " | " impact_parts
      else toString pit_drivers.length ++ " driver(s) pitted; mixed impact",
    confidence := if impact_parts ≠ [] then "Medium" else "Low" }

/-- The PIT branch of `compute_impact` when pit or lap data is missing
(timeline.py:1005-1007). -/
def impact_pit_nodata (item : TimelineItem) : TimelineItem :=
  { item with
    impact_summary := toString item.impacted_drivers.length ++
      " driver(s) pitted; tire strategy change",
    confidence := "High" }

/-- The per-item body of `compute_impact`'s loop (timeline.py:941-1020).  An
item whose `lap` is falsy (`None` or `0`) is skipped entirely
(timeline.py:942); otherwise the `if/elif` cascade runs.  The third arm's
`PIT_STOP` membership is unreachable (caught by the second arm) but kept as
in the source. -/
def impactItem (laps_data : Option (List LapRec)) (pit_data : Option (List PitRec))
    (item : TimelineItem) : TimelineItem :=
  if ¬ pyIntTruthy item.lap then item
  else if [TimelineEventType.SAFETY_CAR, TimelineEventType.VIRTUAL_SC].contains item.event_type then
    match pyTruthyList pit_data with
    | some pd => impact_sc item pd
    | none => item
  else if item.event_type = TimelineEventType.PIT_STOP then
    match pyTruthyList pit_data, pyTruthyList laps_data with
    | some _, some ld => impact_pit_full item ld
    | _, _ => impact_pit_nodata item
  else if [TimelineEventType.INCIDENT, TimelineEventType.PACE_CHANGE,
           TimelineEventType.PIT_STOP].contains item.event_type then
    if item.impacted_drivers ≠ [] then
      { item with
        impact_summary := String.intercalate ", " item.impacted_drivers ++ " affected",
        confidence := "High" }
    else { item with confidence := "Medium" }
  else if item.impacted_drivers = [] then
    { item with
      impact_summary := "Track condition change; check driver strategies",
      confidence := "High" }
  else item

/-- `compute_impact` (timeline.py:923-1023): mutates each item of the list in
place and returns the same list — modelled as a map. -/
def compute_impact (timeline : List TimelineItem) (laps_data : Option (List LapRec))
    (pit_data : Option (List PitRec)) : List TimelineItem :=
  timeline.map (impactItem laps_data pit_data)

/- ---------------------------------------------------------------------------
PDF candidate events (TimelineBuilder._event_to_timeline_item,
timeline.py:151-207)
--------------------------------------------------------------------------- -/

/-- `_event_to_timeline_item` (timeline.py:151-207).  The retriever capability
is passed as a function returning the chunk/score pairs of
`retriever.retrieve(search_query, top_k=3)`; a retrieval failure (caught at
timeline.py:192-193) corresponds to the function returning `[]`. -/
def event_to_timeline_item (retrieve : String → List (Chunk × ℚ))
    (ev : EventData) : TimelineItem :=
  let event_type_str := pyUpper (ev.event_type.getD "INFO")
  let title := ev.title.getD "Event"
  let description := ev.description.getD ""
  let search_query :=
    match ev.search_query with
    | some q => q
    | none => description
  let event_type := (tetOfValue event_type_str).getD TimelineEventType.INFO
  let pdf_citations := (retrieve search_query).map (fun cs =>
    { chunk_id := cs.1.id, snippet := pyTake cs.1.content 200,
      similarity_score := cs.2, page_num := cs.1.page_num : PDFCitation })
  { lap := ev.lap, timestamp := none, event_type := event_type,
    title := title, description := description,
    pdf_citations := pdf_citations, openf1_evidence := [],
    impacted_drivers := [], impact_summary := "",
    confidence := if pdf_citations ≠ [] then "Medium" else "Low" }

/-- Steps 3 and 4 of `build_race_timeline` (timeline.py:1062-1069): the final
timeline is the impact-annotated merge of the PDF and OpenF1 item lists. -/
def race_final_timeline (pdf_items openf1_items : List TimelineItem)
    (laps_data : Option (List LapRec)) (pit_data : Option (List PitRec)) : List TimelineItem :=
  compute_impact (merge_timelines pdf_items openf1_items) laps_data pit_data

/- ---------------------------------------------------------------------------
Shared helpers of the per-collection extractors
--------------------------------------------------------------------------- -/

/-- `session.get("session_id") or session.get("session_key")`
(timeline.py:299, 449, 555, 631, 712, 795, 1133, 1235, 1316, 1402): Python
`or` yields the second operand whenever the first is falsy. -/
def pySessionId (s : Session) : Option String :=
  match truthyStr s.session_id with
  | some v => some v
  | none => s.session_key

/-- Wrapping of an optional string into a payload value. -/
def optPyStr : Option String → PyVal
  | some s => .pstr s
  | none => .pnone

/-- Wrapping of an optional integer into a payload value. -/
def optPyInt : Option Int → PyVal
  | some n => .pint n
  | none => .pnone

/-- Display name of a driver record (timeline.py:1250, 1331, 1417):
`name_acronym or broadcast_name or f"#{driver_number}"`. -/
def driverDisplay (d : DriverRec) : String :=
  match truthyStr d.name_acronym with
  | some v => v
  | none =>
    match truthyStr d.broadcast_name with
    | some v => v
    | none => "#" ++ optIntStr d.driver_number

/-- The `drivers_info` number-to-name dictionary built (when the client has a
`get_drivers` method) at timeline.py:1246-1250, 1327-1331 and 1412-1417,
together with the call it makes. -/
def driversInfo (c : OpenF1Client) (sid : String) :
    List (Option Int × String) × List ApiCall :=
  match c.get_drivers_q with
  | none => ([], [])
  | some get_drivers =>
      ((get_drivers sid).foldl
         (fun m d => dictSet m d.driver_number (driverDisplay d)) [],
       [ApiCall.getDrivers sid])

/-- `drivers_info.get(num, f"#{num}")` (timeline.py:1257-1258, 1361, 1456). -/
def lookupDriver (di : List (Option Int × String)) (num : Option Int) : String :=
  (dictGet? di num).getD ("#" ++ optIntStr num)

/- ---------------------------------------------------------------------------
Race-control extraction (_extract_race_control_events, timeline.py:412-526)
--------------------------------------------------------------------------- -/

/-- The keyword cascade classifying an (already upper-cased) race-control
message text (timeline.py:470-491); the `flag_counts` increments beside each
arm are logging-only and not modelled. -/
def classify_rc (message_text : String) : TimelineEventType :=
  if strContains message_text "RED FLAG" then TimelineEventType.RED_FLAG
  else if strContains message_text "SAFETY CAR" && !(strContains message_text "VIRTUAL") then
    TimelineEventType.SAFETY_CAR
  else if strContains message_text "VIRTUAL SAFETY CAR" || strContains message_text "VSC" then
    TimelineEventType.VIRTUAL_SC
  else if strContains message_text "YELLOW FLAG" ||
          (strContains message_text "YELLOW" && strContains message_text "FLAG") then
    TimelineEventType.YELLOW_FLAG
  else if ["RAIN", "WET", "TRACK CONDITIONS", "WEATHER"].any
            (fun w => strContains message_text w) then
    TimelineEventType.WEATHER
  else if ["INCIDENT", "COLLISION", "CRASH", "OFF TRACK", "DEBRIS", "INVESTIGATION",
           "PENALTY"].any (fun w => strContains message_text w) then
    TimelineEventType.INCIDENT
  else TimelineEventType.INFO

/-- The allow-list that rescues an INFO-classified message from being dropped
(timeline.py:495-497). -/
def rcAllowList : List String :=
  ["PIT LANE OPEN", "PIT LANE CLOSED", "GREEN LIGHT", "GRID PENALTY", "TYRE RULE"]

/-- The `TimelineItem` built for one kept race-control message
(timeline.py:499-517). -/
def mkRcItem (m : RCMessage) (ty : TimelineEventType) : TimelineItem :=
  { lap := m.lap,
    timestamp := m.time,
    event_type := ty,
    title := ty.value ++
      (match m.lap with
       | some n => if n = 0 then "" else " at Lap " ++ toString n
       | none => ""),
    description := m.message.getD "",
    pdf_citations := [],
    openf1_evidence := [
      { evidence_type := "race_control", evidence_id := m.message_id,
        snippet := m.message.getD "",
        payload := .pdict [("message", optPyStr m.message), ("lap", optPyInt m.lap),
                           ("time", optPyStr m.time), ("message_id", optPyStr m.message_id)] }],
    impacted_drivers := [], impact_summary := "", confidence := "High" }

/-- `_extract_race_control_events` (timeline.py:412-526). -/
def extract_race_control_events (c : OpenF1Client) (year : Int)
    (gp_name session_type : String) : List TimelineItem × List ApiCall :=
  let calls0 := [ApiCall.searchSessions year (some gp_name) (some session_type)]
  match c.search_sessions year (some gp_name) (some session_type) with
  | [] => ([], calls0)
  | session :: _ =>
    match truthyStr (pySessionId session) with
    | none => ([], calls0)
    | some sid =>
      let rc_messages := c.get_race_control_messages sid
      let items := rc_messages.filterMap (fun m =>
        let message_text := pyUpper (m.message.getD "")
        let ty := classify_rc message_text
        if ty = TimelineEventType.INFO ∧
           rcAllowList.any (fun w => strContains message_text w) = false then none
        else some (mkRcItem m ty))
      (items, calls0 ++ [ApiCall.getRaceControlMessages sid])

/- ---------------------------------------------------------------------------
Pit-stop extraction (_extract_pit_events, timeline.py:528-602)
--------------------------------------------------------------------------- -/

/-- The `TimelineItem` built for the pit stops of one lap
(timeline.py:571-597).  `set(compounds)` has unspecified order in Python;
first-occurrence order is used.  With `PitRec.driver_name` always present,
the `dict.get` default `"Unknown"` of timeline.py:572 is unreachable. -/
def mkPitItem (lap : Int) (pits : List PitRec) : TimelineItem :=
  let drivers := pits.map (fun p => p.driver_name)
  let compounds := pits.map (fun p => p.compound.getD "Unknown")
  { lap := some lap,
    timestamp :=
      (match pits with
       | p :: _ => p.time
       | [] => none),
    event_type := TimelineEventType.PIT_STOP,
    title := "Pit Stops: Lap " ++ toString lap,
    description := toString pits.length ++ " driver(s) pitted. " ++
      "Drivers: " ++ String.intercalate ", " drivers ++ ". " ++
      "Compounds: " ++ String.intercalate ", " compounds.eraseDups ++ ".",
    pdf_citations := [],
    openf1_evidence := pits.map (fun p =>
      { evidence_type := "pit_stop", evidence_id := p.pit_stop_id,
        snippet := p.driver_name ++ " pitted on lap " ++ toString lap ++
          " for " ++ optStrRepr p.compound,
        payload := .pdict [("driver_name", .pstr p.driver_name),
                           ("compound", optPyStr p.compound), ("lap", optPyInt p.lap),
                           ("time", optPyStr p.time),
                           ("pit_stop_id", optPyStr p.pit_stop_id)] }),
    impacted_drivers := drivers, impact_summary := "", confidence := "High" }

/-- `_extract_pit_events` (timeline.py:528-602): stops are grouped by truthy
lap number into an insertion-ordered dictionary and one item is emitted per
lap. -/
def extract_pit_events (c : OpenF1Client) (year : Int)
    (gp_name session_type : String) : List TimelineItem × List ApiCall :=
  let calls0 := [ApiCall.searchSessions year (some gp_name) (some session_type)]
  match c.search_sessions year (some gp_name) (some session_type) with
  | [] => ([], calls0)
  | session :: _ =>
    match truthyStr (pySessionId session) with
    | none => ([], calls0)
    | some sid =>
      let pit_stops := c.get_pit_stops sid
      let pit_by_lap := pit_stops.foldl
        (fun m p =>
          match p.lap with
          | some n => if n = 0 then m else groupAppend m n p
          | none => m) []
      (pit_by_lap.map (fun kv => mkPitItem kv.1 kv.2),
       calls0 ++ [ApiCall.getPitStops sid])

/- ---------------------------------------------------------------------------
Stint extraction (_extract_stint_events, timeline.py:604-683)
--------------------------------------------------------------------------- -/

/-- The `TimelineItem` attempted for one stint transition
(timeline.py:654-677).  Building it requires the enum member
`TimelineEventType.STRATEGY` (timeline.py:662), which rag/schemas.py does not
define, so the result is always `none` — the `AttributeError` the code
raises there at runtime. -/
def mkStintItem (driver : String) (current next_stint : StintRec) : Option TimelineItem :=
  let change_lap := next_stint.lap_start.getD 999
  let compound_from := current.compound.getD "?"
  let compound_to := next_stint.compound.getD "?"
  (tetAttr "STRATEGY").map (fun ty =>
    { lap := some change_lap, timestamp := none, event_type := ty,
      title := "Stint Change: " ++ driver,
      description := driver ++ " changes from " ++ compound_from ++ " to " ++
        compound_to ++ " at lap " ++ toString change_lap,
      pdf_citations := [],
      openf1_evidence := [
        { evidence_type := "stint_change",
          evidence_id := some (driver ++ "_" ++ toString change_lap),
          snippet := driver ++ ": " ++ compound_from ++ " → " ++ compound_to,
          payload := .pdict [("driver", .pstr driver), ("from", .pstr compound_from),
                             ("to", .pstr compound_to), ("lap", .pint change_lap)] }],
      impacted_drivers := [driver],
      impact_summary := driver ++ " switched from " ++ compound_from ++ " to " ++
        compound_to ++ " tires",
      confidence := "High" })

/-- The inner loop over consecutive stint pairs of one driver
(timeline.py:651-678): `.error acc` models the `AttributeError` escaping to
the function-level `except`, with `acc` the items appended so far. -/
def stintPairsAux (driver : String) :
    List StintRec → List TimelineItem → Except (List TimelineItem) (List TimelineItem)
  | a :: b :: rest, acc =>
    match mkStintItem driver a b with
    | none => .error acc
    | some it => stintPairsAux driver (b :: rest) (acc ++ [it])
  | _, acc => .ok acc

/-- The outer loop over drivers with more than one stint (timeline.py:649-678). -/
def stintDriversAux :
    List (String × List StintRec) → List TimelineItem →
    Except (List TimelineItem) (List TimelineItem)
  | [], acc => .ok acc
  | (driver, ds) :: rest, acc =>
    if ds.length > 1 then
      match stintPairsAux driver ds acc with
      | .error acc2 => .error acc2
      | .ok acc2 => stintDriversAux rest acc2
    else stintDriversAux rest acc

/-- `_extract_stint_events` (timeline.py:604-683).  The function-level
`except Exception` (timeline.py:680-681) swallows the `AttributeError` and
the already-collected `items` list is returned, which both arms of the final
match realize. -/
def extract_stint_events (c : OpenF1Client) (year : Int)
    (gp_name session_type : String) : List TimelineItem × List ApiCall :=
  let calls0 := [ApiCall.searchSessions year (some gp_name) (some session_type)]
  match c.search_sessions year (some gp_name) (some session_type) with
  | [] => ([], calls0)
  | session :: _ =>
    match truthyStr (pySessionId session) with
    | none => ([], calls0)
    | some sid =>
      let calls1 := calls0 ++ [ApiCall.getStints sid]
      match c.get_stints sid with
      | [] => ([], calls1)
      | st :: sts =>
        let by_driver := (st :: sts).foldl
          (fun m stint =>
            groupAppend m
              (stint.driver_name.getD ("Driver " ++ optIntStr stint.driver_number)) stint) []
        let items :=
          match stintDriversAux by_driver [] with
          | .ok xs => xs
          | .error xs => xs
        (items, calls1)

/- ---------------------------------------------------------------------------
Lap markers (_extract_lap_markers, timeline.py:685-766)
--------------------------------------------------------------------------- -/

/-- Rendering of `f"{ms/1000.0:.2f}"` for a lap time in milliseconds
(timeline.py:741-753): the exact decimal `ms/1000` rounded to two places with
ties to even.  Python formats the nearest binary double instead, which can
differ on exact half-way ties; no property proved here depends on that
digit. -/
def fmt2ms (ms : Int) : String :=
  let q := ms / 10
  let r := ms % 10
  let cents := if r > 5 then q + 1 else if r < 5 then q else if q % 2 = 0 then q else q + 1
  toString (cents / 100) ++ "." ++
    (let f := cents % 100
     if f < 10 then "0" ++ toString f else toString f)

/-- One step of the `fastest_by_driver` fold (timeline.py:724-733): skip laps
with falsy `lap_time_ms`, keep the strictly fastest lap per driver.  With
`LapRec.driver_name` always present, the `dict.get` default of
timeline.py:726 is unreachable. -/
def fastestFold (m : List (String × LapRec)) (l : LapRec) : List (String × LapRec) :=
  if l.lap_time_ms = 0 then m
  else
    match dictGet? m l.driver_name with
    | none => dictSet m l.driver_name l
    | some prev => if l.lap_time_ms < prev.lap_time_ms then dictSet m l.driver_name l else m

/-- The `TimelineItem` built for a driver's fastest lap, when both its lap
number and time are truthy (timeline.py:736-761). -/
def mkFastestItem (driver_name : String) (lap_data : LapRec) : Option TimelineItem :=
  match lap_data.lap_number with
  | none => none
  | some lap_num =>
    if lap_num = 0 ∨ lap_data.lap_time_ms = 0 then none
    else some
      { lap := some lap_num, timestamp := none,
        event_type := TimelineEventType.PACE_CHANGE,
        title := "Fastest Lap: " ++ driver_name,
        description := driver_name ++ " set fastest lap on lap " ++ toString lap_num ++
          " (" ++ fmt2ms lap_data.lap_time_ms ++ "s)",
        pdf_citations := [],
        openf1_evidence := [
          { evidence_type := "fastest_lap",
            evidence_id := some (driver_name ++ "_lap_" ++ toString lap_num),
            snippet := driver_name ++ " fastest: " ++ fmt2ms lap_data.lap_time_ms ++ "s",
            payload := .pdict [("driver_name", .pstr lap_data.driver_name),
                               ("driver_number", optPyInt lap_data.driver_number),
                               ("lap_number", optPyInt lap_data.lap_number),
                               ("lap_time_ms", .pint lap_data.lap_time_ms),
                               ("position", optPyInt lap_data.position)] }],
        impacted_drivers := [driver_name],
        impact_summary := driver_name ++ " achieved fastest lap pace",
        confidence := "High" }

/-- `_extract_lap_markers` (timeline.py:685-766). -/
def extract_lap_markers (c : OpenF1Client) (year : Int)
    (gp_name session_type : String) : List TimelineItem × List ApiCall :=
  let calls0 := [ApiCall.searchSessions year (some gp_name) (some session_type)]
  match c.search_sessions year (some gp_name) (some session_type) with
  | [] => ([], calls0)
  | session :: _ =>
    match truthyStr (pySessionId session) with
    | none => ([], calls0)
    | some sid =>
      let calls1 := calls0 ++ [ApiCall.getLaps sid]
      match c.get_laps sid with
      | [] => ([], calls1)
      | l :: ls =>
        let fastest_by_driver := (l :: ls).foldl fastestFold []
        (fastest_by_driver.filterMap (fun kv => mkFastestItem kv.1 kv.2), calls1)

/- ---------------------------------------------------------------------------
Position changes (_extract_position_changes, timeline.py:768-856)
--------------------------------------------------------------------------- -/

/-- The per-lap position dictionary comprehension (timeline.py:819-820):
driver number to position, for records with truthy position; a duplicate
driver number keeps the last value, as a Python dict comprehension does. -/
def posDict (recs : List LapRec) : List (Option Int × Int) :=
  recs.foldl
    (fun m l =>
      match l.position with
      | some p => if p = 0 then m else dictSet m l.driver_number p
      | none => m) []

/-- The driver-name lookup of timeline.py:827-830: the name on the first
record of the next lap with the given driver number, else
`f"Driver {driver_num}"`. -/
def posDriverName (nextRecs : List LapRec) (driver_num : Option Int) : String :=
  match nextRecs.find? (fun l => l.driver_number == driver_num) with
  | some l => l.driver_name
  | none => "Driver " ++ optIntStr driver_num

/-- The `TimelineItem` built for one improved position (timeline.py:832-850). -/
def mkPosItem (driver_num : Option Int) (driver_name : String)
    (current_pos next_pos next_lap : Int) : TimelineItem :=
  { lap := some next_lap, timestamp := none,
    event_type := TimelineEventType.INCIDENT,
    title := "Position Change: " ++ driver_name,
    description := driver_name ++ " advanced from P" ++ toString current_pos ++
      " to P" ++ toString next_pos,
    pdf_citations := [],
    openf1_evidence := [
      { evidence_type := "position_change",
        evidence_id := some (optIntStr driver_num ++ "_lap_" ++ toString next_lap),
        snippet := driver_name ++ ": P" ++ toString current_pos ++ " → P" ++
          toString next_pos,
        payload := .pdict [("driver", .pstr driver_name), ("from", .pint current_pos),
                           ("to", .pint next_pos), ("lap", .pint next_lap)] }],
    impacted_drivers := [driver_name],
    impact_summary := driver_name ++ " gained a position",
    confidence := "High" }

/-- The events emitted for one pair of consecutive populated lap numbers
(timeline.py:816-851): a driver whose truthy position strictly improved
(numerically decreased) yields one item. -/
def posEventsFor (by_lap : List (Int × List LapRec)) (current_lap next_lap : Int) :
    List TimelineItem :=
  let currentRecs := (dictGet? by_lap current_lap).getD []
  let nextRecs := (dictGet? by_lap next_lap).getD []
  let current_positions := posDict currentRecs
  let next_positions := posDict nextRecs
  next_positions.filterMap (fun kv =>
    let next_pos : Int := kv.2
    match (dictGet? current_positions kv.1 : Option Int) with
    | none => none
    | some current_pos =>
      if current_pos ≠ 0 ∧ next_pos ≠ 0 ∧ current_pos > next_pos then
        some (mkPosItem kv.1 (posDriverName nextRecs kv.1) current_pos next_pos next_lap)
      else none)

/-- Consecutive pairs of a list, as `range(len(xs) - 1)` indexing produces. -/
def consecPairs : List Int → List (Int × Int)
  | a :: b :: rest => (a, b) :: consecPairs (b :: rest)
  | _ => []

/-- `_extract_position_changes` (timeline.py:768-856). -/
def extract_position_changes (c : OpenF1Client) (year : Int)
    (gp_name session_type : String) : List TimelineItem × List ApiCall :=
  let calls0 := [ApiCall.searchSessions year (some gp_name) (some session_type)]
  match c.search_sessions year (some gp_name) (some session_type) with
  | [] => ([], calls0)
  | session :: _ =>
    match truthyStr (pySessionId session) with
    | none => ([], calls0)
    | some sid =>
      let calls1 := calls0 ++ [ApiCall.getLaps sid]
      match c.get_laps sid with
      | [] => ([], calls1)
      | l :: ls =>
        let by_lap := (l :: ls).foldl
          (fun m lp =>
            match lp.lap_number with
            | some n => if n = 0 then m else groupAppend m n lp
            | none => m) []
        let lap_numbers :=
          List.insertionSort (fun a b => (a : Int) ≤ b) (by_lap.map (fun kv => kv.1))
        ((consecPairs lap_numbers).flatMap (fun pr => posEventsFor by_lap pr.1 pr.2),
         calls1)

/- ---------------------------------------------------------------------------
Weather events (_extract_weather_events, timeline.py:1103-1203)
--------------------------------------------------------------------------- -/

/-- The `TimelineItem` built when rainfall transitions (timeline.py:1155-1195):
`started` selects the rain-start or rain-stop wording; `i` is the reading's
index, used in the evidence id. -/
def mkWeatherItem (started : Bool) (i : Nat) (r : WeatherRec) : TimelineItem :=
  { lap := none, timestamp := r.date,
    event_type := TimelineEventType.WEATHER,
    title := if started then "Rain Started" else "Rain Stopped",
    description := (if started then "Rainfall detected. " else "Rainfall stopped. ") ++
      "Track temp: " ++ optIntStr r.track_temperature ++ "°C, Air temp: " ++
      optIntStr r.air_temperature ++ "°C",
    pdf_citations := [],
    openf1_evidence := [
      { evidence_type := "weather",
        evidence_id := some ("weather_" ++ toString i),
        snippet := (if started then "Rain started at " else "Rain stopped at ") ++
          optStrRepr r.date,
        payload := .pdict [("rainfall", optPyInt r.rainfall),
                           ("track_temperature", optPyInt r.track_temperature),
                           ("air_temperature", optPyInt r.air_temperature),
                           ("date", optPyStr r.date)] }],
    impacted_drivers := [],
    impact_summary := "Weather change may affect tire strategy",
    confidence := "High" }

/-- The reading loop of timeline.py:1144-1198: emits an item on each rainfall
transition between consecutive readings.  The `previous_track_temp` variable
of the source is assigned but never read and is not modelled. -/
def weatherFold : List WeatherRec → Nat → Option Int → List TimelineItem → List TimelineItem
  | [], _, _, acc => acc
  | r :: rest, i, prev, acc =>
    let rainfall := r.rainfall.getD 0
    let acc2 :=
      match prev with
      | none => acc
      | some p =>
        if rainfall ≠ p then
          if rainfall > 0 ∧ p = 0 then acc ++ [mkWeatherItem true i r]
          else if rainfall = 0 ∧ p > 0 then acc ++ [mkWeatherItem false i r]
          else acc
        else acc
    weatherFold rest (i + 1) (some rainfall) acc2

/-- `_extract_weather_events` (timeline.py:1103-1203). -/
def extract_weather_events (c : OpenF1Client) (year : Int)
    (gp_name session_type : String) : List TimelineItem × List ApiCall :=
  match c.get_weather_q with
  | none => ([], [])
  | some get_weather =>
    let calls0 := [ApiCall.searchSessions year (some gp_name) (some session_type)]
    match c.search_sessions year (some gp_name) (some session_type) with
    | [] => ([], calls0)
    | session :: _ =>
      match truthyStr (pySessionId session) with
      | none => ([], calls0)
      | some sid =>
        let calls1 := calls0 ++ [ApiCall.getWeather sid]
        match get_weather sid with
        | [] => ([], calls1)
        | w :: ws => (weatherFold (w :: ws) 0 none [], calls1)

/- ---------------------------------------------------------------------------
Overtake events (_extract_overtake_events, timeline.py:1205-1284)
--------------------------------------------------------------------------- -/

/-- The `TimelineItem` attempted for one overtake record
(timeline.py:1260-1278).  Constructing it requires the missing enum member
`TimelineEventType.OVERTAKE` (timeline.py:1263), so the result is always
`none` (an `AttributeError` at runtime). -/
def mkOvertakeItem (di : List (Option Int × String)) (o : OvertakeRec) :
    Option TimelineItem :=
  let overtaking_name := lookupDriver di o.overtaking_driver_number
  let overtaken_name := lookupDriver di o.overtaken_driver_number
  (tetAttr "OVERTAKE").map (fun ty =>
    { lap := none, timestamp := o.date, event_type := ty,
      title := "Overtake: " ++ overtaking_name ++ " passes " ++ overtaken_name,
      description := overtaking_name ++ " overtakes " ++ overtaken_name ++
        " for P" ++ optIntStr o.position,
      pdf_citations := [],
      openf1_evidence := [
        { evidence_type := "overtake",
          evidence_id := some ("overtake_" ++ optIntStr o.overtaking_driver_number ++
            "_" ++ optIntStr o.overtaken_driver_number),
          snippet := overtaking_name ++ " passes " ++ overtaken_name ++ " for P" ++
            optIntStr o.position,
          payload := .pdict [("overtaking_driver_number", optPyInt o.overtaking_driver_number),
                             ("overtaken_driver_number", optPyInt o.overtaken_driver_number),
                             ("position", optPyInt o.position),
                             ("date", optPyStr o.date)] }],
      impacted_drivers := [overtaking_name, overtaken_name],
      impact_summary := overtaking_name ++ " gains position; " ++ overtaken_name ++
        " loses position",
      confidence := "High" })

/-- The loop over overtake records (timeline.py:1252-1279), aborting with the
items collected so far when item construction raises. -/
def overtakeAux (di : List (Option Int × String)) :
    List OvertakeRec → List TimelineItem → Except (List TimelineItem) (List TimelineItem)
  | [], acc => .ok acc
  | o :: rest, acc =>
    match mkOvertakeItem di o with
    | none => .error acc
    | some it => overtakeAux di rest (acc ++ [it])

/-- `_extract_overtake_events` (timeline.py:1205-1284): skipped entirely when
the client lacks `get_overtakes`; the function-level `except`
(timeline.py:1281-1282) returns the items collected before the
`AttributeError`. -/
def extract_overtake_events (c : OpenF1Client) (year : Int)
    (gp_name session_type : String) : List TimelineItem × List ApiCall :=
  match c.get_overtakes_q with
  | none => ([], [])
  | some get_overtakes =>
    let calls0 := [ApiCall.searchSessions year (some gp_name) (some session_type)]
    match c.search_sessions year (some gp_name) (some session_type) with
    | [] => ([], calls0)
    | session :: _ =>
      match truthyStr (pySessionId session) with
      | none => ([], calls0)
      | some sid =>
        let calls1 := calls0 ++ [ApiCall.getOvertakes sid]
        match get_overtakes sid with
        | [] => ([], calls1)
        | o :: os =>
          let di := driversInfo c sid
          let items :=
            match overtakeAux di.1 (o :: os) [] with
            | .ok xs => xs
            | .error xs => xs
          (items, calls1 ++ di.2)

/- ---------------------------------------------------------------------------
Starting grid (_extract_starting_grid, timeline.py:1286-1370)
--------------------------------------------------------------------------- -/

/-- `sorted(grid, key=lambda x: x.get("position", 999))` (timeline.py:1334). -/
def sortGridRecs (grid : List GridRec) : List GridRec :=
  List.insertionSort (fun a b => a.position.getD 999 ≤ b.position.getD 999) grid

/-- The `"Top 3: ..."` snippet entries of timeline.py:1355-1357: the name at
index `i` of the sorted grid with default `"?"`, both for a missing driver
number and for a grid shorter than `i + 1`. -/
def gridTopName (di : List (Option Int × String)) (gs : List GridRec) (i : Nat) : String :=
  match gs.get? i with
  | some p => (dictGet? di p.driver_number).getD "?"
  | none => "?"

/-- `_extract_starting_grid` (timeline.py:1286-1370).  The single summary item
is attempted at timeline.py:1344-1364 with the missing enum member
`TimelineEventType.GRID`, so the `AttributeError` always leaves `items`
empty. -/
def extract_starting_grid (c : OpenF1Client) (year : Int)
    (gp_name session_type : String) : List TimelineItem × List ApiCall :=
  match c.get_starting_grid_q with
  | none => ([], [])
  | some get_grid =>
    let calls0 := [ApiCall.searchSessions year (some gp_name) (some session_type)]
    match c.search_sessions year (some gp_name) (some session_type) with
    | [] => ([], calls0)
    | session :: _ =>
      match truthyStr (pySessionId session) with
      | none => ([], calls0)
      | some sid =>
        let calls1 := calls0 ++ [ApiCall.getStartingGrid sid]
        match get_grid sid with
        | [] => ([], calls1)
        | g :: gs =>
          let di := driversInfo c sid
          let grid_sorted := sortGridRecs (g :: gs)
          let top_10 := grid_sorted.take 10
          let grid_description := "Starting Grid:\n" ++
            String.join (top_10.map (fun p =>
              "P" ++ optIntStr p.position ++ ": " ++
                lookupDriver di.1 p.driver_number ++ "\n"))
          let items :=
            match tetAttr "GRID" with
            | none => []
            | some ty =>
              [{ lap := some 0, timestamp := none, event_type := ty,
                 title := "Starting Grid",
                 description := pyStrip grid_description,
                 pdf_citations := [],
                 openf1_evidence := [
                   { evidence_type := "starting_grid", evidence_id := some "grid",
                     snippet := "Top 3: P1 " ++ gridTopName di.1 grid_sorted 0 ++
                       ", P2 " ++ gridTopName di.1 grid_sorted 1 ++
                       ", P3 " ++ gridTopName di.1 grid_sorted 2,
                     payload := .pdict [("grid", .plist ((g :: gs).map (fun p =>
                       .pdict [("driver_number", optPyInt p.driver_number),
                               ("position", optPyInt p.position)])))] }],
                 impacted_drivers := top_10.map (fun p => lookupDriver di.1 p.driver_number),
                 impact_summary := "Pre-race starting positions",
                 confidence := "High" : TimelineItem }]
          (items, calls1 ++ di.2)

/- ---------------------------------------------------------------------------
Session results (_extract_session_results, timeline.py:1372-1465)
--------------------------------------------------------------------------- -/

/-- One description line of the results summary (timeline.py:1427-1435). -/
def resultLine (di : List (Option Int × String)) (res : ResultRec) : String :=
  let gap_str :=
    match res.gap_to_leader with
    | some g => if g ≠ 0 then "+" ++ toString g ++ "s" else ""
    | none => ""
  let dnf_str := if res.dnf.getD false then " (DNF)" else ""
  "P" ++ optIntStr res.position ++ ": " ++ lookupDriver di res.driver_number ++
    " " ++ gap_str ++ dnf_str ++ "\n"

/-- `_extract_session_results` (timeline.py:1372-1465).  The single summary
item is attempted at timeline.py:1440-1459 with the missing enum member
`TimelineEventType.RESULT`, so the `AttributeError` always leaves `items`
empty. -/
def extract_session_results (c : OpenF1Client) (year : Int)
    (gp_name session_type : String) : List TimelineItem × List ApiCall :=
  match c.get_session_result_q with
  | none => ([], [])
  | some get_result =>
    let calls0 := [ApiCall.searchSessions year (some gp_name) (some session_type)]
    match c.search_sessions year (some gp_name) (some session_type) with
    | [] => ([], calls0)
    | session :: _ =>
      match truthyStr (pySessionId session) with
      | none => ([], calls0)
      | some sid =>
        let calls1 := calls0 ++ [ApiCall.getSessionResult sid]
        match get_result sid with
        | [] => ([], calls1)
        | r :: rs =>
          let di := driversInfo c sid
          let results_sorted := List.insertionSort
            (fun a b => a.position.getD 999 ≤ b.position.getD 999) (r :: rs)
          let top_10 := results_sorted.take 10
          let dnf_drivers := (r :: rs).filter (fun x => x.dnf.getD false)
          let result_description := "Final Results:\n" ++
            String.join (top_10.map (resultLine di.1)) ++
            (if dnf_drivers ≠ [] then
              "\nDNF: " ++ toString dnf_drivers.length ++ " driver(s)" else "")
          let winner_name :=
            match results_sorted with
            | w :: _ => (dictGet? di.1 w.driver_number).getD "?"
            | [] => "?"
          let items :=
            match tetAttr "RESULT" with
            | none => []
            | some ty =>
              [{ lap := some 999, timestamp := none, event_type := ty,
                 title := "Session Results",
                 description := pyStrip result_description,
                 pdf_citations := [],
                 openf1_evidence := [
                   { evidence_type := "session_result", evidence_id := some "results",
                     snippet := "Winner: " ++ winner_name ++ ", DNFs: " ++
                       toString dnf_drivers.length,
                     payload := .pdict [("results", .plist ((r :: rs).map (fun x =>
                       .pdict [("driver_number", optPyInt x.driver_number),
                               ("position", optPyInt x.position),
                               ("gap_to_leader", optPyInt x.gap_to_leader),
                               ("dnf", match x.dnf with
                                       | some b => .pbool b
                                       | none => .pnone)])))] }],
                 impacted_drivers := top_10.map (fun x => lookupDriver di.1 x.driver_number),
                 impact_summary :=
                   if dnf_drivers ≠ [] then
                     "Final standings with " ++ toString dnf_drivers.length ++ " DNF(s)"
                   else "Final standings",
                 confidence := "High" : TimelineItem }]
          (items, calls1 ++ di.2)

/- ---------------------------------------------------------------------------
Session resolution and timeline assembly
(TimelineBuilder.build_openf1_timeline, timeline.py:209-410)
--------------------------------------------------------------------------- -/

/-- The alternative-year loop of timeline.py:264-273: the code tries the fixed
list `[2024, 2023, 2022]` (not `year-1, year-2, ...`) and adopts the first
year whose unfiltered search hits, together with the calls made. -/
def altYearSearch (c : OpenF1Client) (gp_name : String) :
    List Int → Option (Int × List Session) × List ApiCall
  | [] => (none, [])
  | y :: rest =>
    match c.search_sessions y (some gp_name) none with
    | [] =>
      let r := altYearSearch c gp_name rest
      (r.1, ApiCall.searchSessions y (some gp_name) none :: r.2)
    | s :: ss => (some (y, s :: ss), [ApiCall.searchSessions y (some gp_name) none])

/-- The successful tail of `build_openf1_timeline` (timeline.py:295-410):
`session` is `test_sessions[0]`, `year` the (possibly fallback-adopted)
resolved year; the debug info of timeline.py:307-319 is recorded and the nine
per-collection extractors run in order. -/
def buildFromSession (c : OpenF1Client) (year : Int) (gp_name session_type : String)
    (session : Session) (callsAcc : List ApiCall) : BuildResult :=
  let debug : DebugInfo :=
    { detected_year := year, detected_gp := gp_name,
      detected_session_type := session_type,
      session_id := pySessionId session, session_found := true, error_msg := none,
      matched_session := some
        { gp_name := session.gp_name, year := session.year,
          session_type := session.session_type, session_date := session.session_date } }
  let rc := extract_race_control_events c year gp_name session_type
  let pit := extract_pit_events c year gp_name session_type
  let stint := extract_stint_events c year gp_name session_type
  let lapm := extract_lap_markers c year gp_name session_type
  let posn := extract_position_changes c year gp_name session_type
  let wea := extract_weather_events c year gp_name session_type
  let ovr := extract_overtake_events c year gp_name session_type
  let grid := extract_starting_grid c year gp_name session_type
  let res := extract_session_results c year gp_name session_type
  { events := rc.1 ++ pit.1 ++ stint.1 ++ lapm.1 ++ posn.1 ++ wea.1 ++ ovr.1 ++
      grid.1 ++ res.1,
    debug := some debug,
    calls := callsAcc ++ rc.2 ++ pit.2 ++ stint.2 ++ lapm.2 ++ posn.2 ++ wea.2 ++
      ovr.2 ++ grid.2 ++ res.2 }

/-- The session-resolution cascade of timeline.py:244-299, entered once the
metadata passed the fail-fast checks: the filtered search, the
type-unfiltered search preferring a RACE session, the fixed alternative-year
loop, and the final listing of the year's GPs into the failure debug info of
timeline.py:284-293.  Python renders the available-GP list with `repr`
quotes; the bracketed comma join below differs only in those quote marks. -/
def buildResolved (c : OpenF1Client) (year0 : Int) (gp_name session_type : String)
    : BuildResult :=
  let call1 := ApiCall.searchSessions year0 (some gp_name) (some session_type)
  match c.search_sessions year0 (some gp_name) (some session_type) with
  | s :: _ => buildFromSession c year0 gp_name session_type s [call1]
  | [] =>
    let call2 := ApiCall.searchSessions year0 (some gp_name) none
    match c.search_sessions year0 (some gp_name) none with
    | f :: fs =>
      let race_session :=
        (((f :: fs).find? (fun s => pyUpper (s.session_type.getD "") = "RACE")).getD f)
      buildFromSession c year0 gp_name session_type race_session [call1, call2]
    | [] =>
      match altYearSearch c gp_name [2024, 2023, 2022] with
      | (some (alt_year, alt_sessions), altCalls) =>
        -- `altYearSearch` succeeds only with a non-empty list, so the second
        -- arm below is unreachable.
        (match alt_sessions with
         | s :: _ =>
           buildFromSession c alt_year gp_name session_type s ([call1, call2] ++ altCalls)
         | [] =>
           { events := [], debug := none, calls := [call1, call2] ++ altCalls })
      | (none, altCalls) =>
        let call3 := ApiCall.searchSessions year0 none none
        let all_sessions := c.search_sessions year0 none none
        let available_gps := (all_sessions.filterMap (fun s => truthyStr s.gp_name)).eraseDups
        { events := [],
          debug := some
            { detected_year := year0, detected_gp := gp_name,
              detected_session_type := session_type, session_id := none,
              session_found := false,
              error_msg := some ("Session not found in OpenF1 database. Available GPs for " ++
                toString year0 ++ ": [" ++ String.intercalate ", " available_gps ++ "]"),
              matched_session := none },
          calls := [call1, call2] ++ altCalls ++ [call3] }

/-- `build_openf1_timeline` (timeline.py:209-410).  `debug0` is the builder's
`self.debug_info` before the call; the fail-fast returns at
timeline.py:235-241 leave it untouched and make no client call.  The
function-level `except Exception` of timeline.py:404-405 cannot fire in the
modelled fragment (every dictionary access uses `.get`), so it is not
modelled. -/
def build_openf1_timeline (c : OpenF1Client) (meta : SessionMetadata)
    (debug0 : Option DebugInfo) : BuildResult :=
  let session_type := meta.session_type.getD "RACE"
  match meta.year, meta.gp_name with
  | some y, some g =>
    if y = 0 ∨ g = "" then { events := [], debug := debug0, calls := [] }
    else if pyLower g = "unknown" then { events := [], debug := debug0, calls := [] }
    else buildResolved c y g session_type
  | _, _ => { events := [], debug := debug0, calls := [] }

/- ---------------------------------------------------------------------------
Concrete fixtures used by the counterexamples and witnesses below
--------------------------------------------------------------------------- -/

/-- A resolved 2024 Bahrain race session. -/
def c1_session : Session :=
  { session_id := some "9158", session_key := none, gp_name := some "Bahrain",
    year := some 2024, session_type := some "RACE", session_date := some "2024-03-02" }

/-- A client whose stints collection gives driver VER two stints (SOFT, then
MEDIUM from lap 20) — the claim C1 situation. -/
def c1_client : OpenF1Client :=
  { search_sessions := fun y gp st =>
      if y = 2024 ∧ gp = some "Bahrain" ∧ st = some "RACE" then [c1_session] else [],
    get_race_control_messages := fun _ => [],
    get_pit_stops := fun _ => [],
    get_stints := fun _ =>
      [{ driver_name := some "VER", driver_number := some 1,
         compound := some "SOFT", lap_start := some 1 },
       { driver_name := some "VER", driver_number := some 1,
         compound := some "MEDIUM", lap_start := some 20 }],
    get_laps := fun _ => [],
    get_weather_q := some (fun _ => []),
    get_overtakes_q := some (fun _ => []),
    get_drivers_q := some (fun _ => []),
    get_starting_grid_q := some (fun _ => []),
    get_session_result_q := some (fun _ => []) }

/-- An LLM-extracted candidate event whose retrieval query matches nothing. -/
def c2_event : EventData :=
  { lap := some 3, event_type := some "INCIDENT", title := some "Contact at turn 4",
    description := some "Two cars made contact at turn 4",
    search_query := some "contact turn 4" }

/-- The document-derived item produced for `c2_event` when the retriever
returns no chunks: zero citations and zero evidence. -/
def c2_item : TimelineItem := event_to_timeline_item (fun _ => []) c2_event

/-- A document-derived item with one citation, for the C2 witness. -/
def c2_cited_item : TimelineItem :=
  event_to_timeline_item
    (fun _ => [({ id := "chunk-12", content := "The safety car was deployed on lap 15.",
                  page_num := some 4 }, (4 / 5 : ℚ))])
    { lap := some 15, event_type := some "SC", title := some "Safety Car",
      description := some "Safety car deployed after debris",
      search_query := some "safety car lap 15" }

/-- A Low-confidence document event (no citations found). -/
def c3_low : TimelineItem :=
  { lap := some 7, timestamp := none, event_type := TimelineEventType.INFO,
    title := "Team message", description := "Driver reported graining on the front left",
    pdf_citations := [], openf1_evidence := [], impacted_drivers := [],
    impact_summary := "", confidence := "Low" }

/-- A Medium-confidence document event with the same merge key as `c3_low`. -/
def c3_med : TimelineItem :=
  { lap := some 7, timestamp := none, event_type := TimelineEventType.INFO,
    title := "Team message", description := "Driver reported graining on the front left",
    pdf_citations := [{ chunk_id := "chunk-3", snippet := "graining on the front left",
                        similarity_score := (7 / 10 : ℚ), page_num := some 2 }],
    openf1_evidence := [], impacted_drivers := [],
    impact_summary := "", confidence := "Medium" }

/-- A telemetry safety-car event at lap 15 with one evidence record. -/
def c3_sc_openf1 : TimelineItem :=
  { lap := some 15, timestamp := some "14:32:10", event_type := TimelineEventType.SAFETY_CAR,
    title := "SC at Lap 15", description := "Safety car deployed after debris",
    pdf_citations := [],
    openf1_evidence := [{ evidence_type := "race_control", evidence_id := some "m42",
                          snippet := "SAFETY CAR DEPLOYED", payload := .pdict [] }],
    impacted_drivers := [], impact_summary := "", confidence := "High" }

/-- A document safety-car event with the same merge key as `c3_sc_openf1` and
one citation. -/
def c3_sc_pdf : TimelineItem :=
  { lap := some 15, timestamp := none, event_type := TimelineEventType.SAFETY_CAR,
    title := "Safety Car", description := "Safety car deployed after debris",
    pdf_citations := [{ chunk_id := "chunk-9", snippet := "the safety car came out",
                        similarity_score := (3 / 5 : ℚ), page_num := some 1 }],
    openf1_evidence := [], impacted_drivers := [],
    impact_summary := "", confidence := "Medium" }

/-- A session that exists only in 2021. -/
def c4_session : Session :=
  { session_id := some "7001", session_key := none, gp_name := some "Brazil",
    year := some 2021, session_type := some "RACE", session_date := some "2021-11-14" }

/-- A client whose only sessions for GP "Brazil" are in 2021: the requested
year 2022 matches nothing, the year exactly one earlier matches. -/
def c4_client : OpenF1Client :=
  { search_sessions := fun y gp _ =>
      if y = 2021 ∧ gp = some "Brazil" then [c4_session] else [],
    get_race_control_messages := fun _ => [],
    get_pit_stops := fun _ => [],
    get_stints := fun _ => [],
    get_laps := fun _ => [],
    get_weather_q := some (fun _ => []),
    get_overtakes_q := some (fun _ => []),
    get_drivers_q := some (fun _ => []),
    get_starting_grid_q := some (fun _ => []),
    get_session_result_q := some (fun _ => []) }

/-- A session that exists only in 2024 (for the C4 witness: requested year
2025, fallback hits 2024 = year - 1). -/
def c4w_session : Session :=
  { session_id := some "8123", session_key := none, gp_name := some "Sao Paulo",
    year := some 2024, session_type := some "RACE", session_date := some "2024-11-03" }

/-- A client whose only sessions for GP "Sao Paulo" are type-unfiltered hits
in 2024. -/
def c4w_client : OpenF1Client :=
  { search_sessions := fun y gp st =>
      if y = 2024 ∧ gp = some "Sao Paulo" ∧ st = none then [c4w_session] else [],
    get_race_control_messages := fun _ => [],
    get_pit_stops := fun _ => [],
    get_stints := fun _ => [],
    get_laps := fun _ => [],
    get_weather_q := some (fun _ => []),
    get_overtakes_q := some (fun _ => []),
    get_drivers_q := some (fun _ => []),
    get_starting_grid_q := some (fun _ => []),
    get_session_result_q := some (fun _ => []) }

/-- A client all of whose collections are empty. -/
def c5_client : OpenF1Client :=
  { search_sessions := fun _ _ _ => [],
    get_race_control_messages := fun _ => [],
    get_pit_stops := fun _ => [],
    get_stints := fun _ => [],
    get_laps := fun _ => [],
    get_weather_q := some (fun _ => []),
    get_overtakes_q := some (fun _ => []),
    get_drivers_q := some (fun _ => []),
    get_starting_grid_q := some (fun _ => []),
    get_session_result_q := some (fun _ => []) }

/-- A telemetry weather event without a lap. -/
def c6_nolap : TimelineItem :=
  { lap := none, timestamp := some "2024-03-02T15:40:00", event_type := TimelineEventType.WEATHER,
    title := "Rain Started", description := "Rainfall detected on track",
    pdf_citations := [],
    openf1_evidence := [{ evidence_type := "weather", evidence_id := some "weather_3",
                          snippet := "Rain started", payload := .pdict [] }],
    impacted_drivers := [], impact_summary := "", confidence := "High" }

/-- A numbered-lap event whose lap exceeds the `999999` no-lap sentinel. -/
def c6_biglap : TimelineItem :=
  { lap := some 1000000, timestamp := none, event_type := TimelineEventType.INFO,
    title := "Ceremony", description := "Post-race ceremony note",
    pdf_citations := [],
    openf1_evidence := [{ evidence_type := "race_control", evidence_id := some "m99",
                          snippet := "note", payload := .pdict [] }],
    impacted_drivers := [], impact_summary := "", confidence := "High" }

/-- A merged safety-car event at lap 10 with no impacted drivers. -/
def c8_sc : TimelineItem :=
  { lap := some 10, timestamp := none, event_type := TimelineEventType.SAFETY_CAR,
    title := "SC at Lap 10", description := "SAFETY CAR DEPLOYED",
    pdf_citations := [],
    openf1_evidence := [{ evidence_type := "race_control", evidence_id := some "m7",
                          snippet := "SAFETY CAR DEPLOYED", payload := .pdict [] }],
    impacted_drivers := [], impact_summary := "", confidence := "High" }

/-- A pit stop by VER on lap 10, inside the safety-car window of `c8_sc`. -/
def c8_pit : PitRec :=
  { driver_name := "VER", compound := some "HARD", lap := some 10,
    time := some "14:55:02", pit_stop_id := some "p31" }

/-- A 2023 Spa race session. -/
def c9_session : Session :=
  { session_id := some "7777", session_key := none, gp_name := some "Spa",
    year := some 2023, session_type := some "RACE", session_date := some "2023-07-30" }

/-- A client whose weather collection shows one dry reading followed by one
wet reading, so the weather extractor emits a single lap-less "Rain Started"
event. -/
def c9_client : OpenF1Client :=
  { search_sessions := fun y gp st =>
      if y = 2023 ∧ gp = some "Spa" ∧ st = some "RACE" then [c9_session] else [],
    get_race_control_messages := fun _ => [],
    get_pit_stops := fun _ => [],
    get_stints := fun _ => [],
    get_laps := fun _ => [],
    get_weather_q := some (fun _ =>
      [{ rainfall := some 0, track_temperature := some 31, air_temperature := some 22,
         date := some "2023-07-30T14:05:00" },
       { rainfall := some 1, track_temperature := some 24, air_temperature := some 19,
         date := some "2023-07-30T14:20:00" }]),
    get_overtakes_q := some (fun _ => []),
    get_drivers_q := some (fun _ => []),
    get_starting_grid_q := some (fun _ => []),
    get_session_result_q := some (fun _ => []) }

/-- A merged weather event at lap 5 with no impacted drivers and empty
summary, for the C9 witness. -/
def c9_w5 : TimelineItem :=
  { lap := some 5, timestamp := none, event_type := TimelineEventType.WEATHER,
    title := "Track conditions", description := "Track conditions worsening",
    pdf_citations := [],
    openf1_evidence := [{ evidence_type := "race_control", evidence_id := some "m12",
                          snippet := "TRACK CONDITIONS", payload := .pdict [] }],
    impacted_drivers := [], impact_summary := "", confidence := "High" }

/-- An earlier telemetry pit event at lap 22 with its own evidence record. -/
def c10_a : TimelineItem :=
  { lap := some 22, timestamp := some "15:02:11", event_type := TimelineEventType.PIT_STOP,
    title := "Pit Stops: Lap 22", description := "2 driver(s) pitted. Drivers: HAM, RUS.",
    pdf_citations := [],
    openf1_evidence := [{ evidence_type := "pit_stop", evidence_id := some "p1",
                          snippet := "HAM pitted on lap 22", payload := .pdict [] }],
    impacted_drivers := ["HAM", "RUS"], impact_summary := "", confidence := "High" }

/-- A later telemetry pit event sharing `c10_a`'s merge key but carrying a
different evidence record. -/
def c10_b : TimelineItem :=
  { lap := some 22, timestamp := some "15:02:13", event_type := TimelineEventType.PIT_STOP,
    title := "Pit Stops: Lap 22", description := "2 driver(s) pitted. Drivers: HAM, RUS.",
    pdf_citations := [],
    openf1_evidence := [{ evidence_type := "pit_stop", evidence_id := some "p2",
                          snippet := "RUS pitted on lap 22", payload := .pdict [] }],
    impacted_drivers := ["HAM", "RUS"], impact_summary := "", confidence := "High" }

/-- The specification's reading of the control-message classifier: an explicit
ordered list of (predicate, kind) pairs, evaluated top to bottom,
first-match-wins, with INFO as the fallback.  The predicates are the keyword
tests of the priority order RED_FLAG, SAFETY_CAR (excluding "virtual"),
VIRTUAL_SAFETY_CAR, YELLOW_FLAG, WEATHER, INCIDENT. -/
def specRcOrder : List ((String → Bool) × TimelineEventType) :=
  [(fun t => strContains t "RED FLAG", TimelineEventType.RED_FLAG),
   (fun t => strContains t "SAFETY CAR" && !(strContains t "VIRTUAL"),
    TimelineEventType.SAFETY_CAR),
   (fun t => strContains t "VIRTUAL SAFETY CAR" || strContains t "VSC",
    TimelineEventType.VIRTUAL_SC),
   (fun t => strContains t "YELLOW FLAG" ||
      (strContains t "YELLOW" && strContains t "FLAG"), TimelineEventType.YELLOW_FLAG),
   (fun t => ["RAIN", "WET", "TRACK CONDITIONS", "WEATHER"].any
      (fun w => strContains t w), TimelineEventType.WEATHER),
   (fun t => ["INCIDENT", "COLLISION", "CRASH", "OFF TRACK", "DEBRIS", "INVESTIGATION",
              "PENALTY"].any (fun w => strContains t w), TimelineEventType.INCIDENT)]

/-- First-match-wins evaluation of an ordered (predicate, kind) list. -/
def specFirstMatch (t : String) : List ((String → Bool) × TimelineEventType) →
    TimelineEventType
  | [] => TimelineEventType.INFO
  | (p, k) :: rest => if p t then k else specFirstMatch t rest

/-- The specification-side classifier: upper-case the raw message
(case-insensitive search) and evaluate the ordered cascade. -/
def specRcClassify (raw : String) : TimelineEventType :=
  specFirstMatch (pyUpper raw) specRcOrder

/-- A merged yellow-flag event at lap 12 (kind outside the safety-car pair). -/
def c8_yellow : TimelineItem :=
  { lap := some 12, timestamp := none, event_type := TimelineEventType.YELLOW_FLAG,
    title := "YELLOW at Lap 12", description := "YELLOW FLAG SECTOR 2",
    pdf_citations := [],
    openf1_evidence := [{ evidence_type := "race_control", evidence_id := some "m21",
                          snippet := "YELLOW FLAG SECTOR 2", payload := .pdict [] }],
    impacted_drivers := ["PER"], impact_summary := "", confidence := "High" }

/-- The identity and provenance fields of a timeline item — everything except
`impacted_drivers`, `impact_summary` and `confidence`. -/
def frozenFields (x : TimelineItem) :
    Option Int × Option String × TimelineEventType × String × String ×
    List PDFCitation × List OpenF1Evidence :=
  (x.lap, x.timestamp, x.event_type, x.title, x.description,
   x.pdf_citations, x.openf1_evidence)

/- ---------------------------------------------------------------------------
Helper lemmas
--------------------------------------------------------------------------- -/

theorem charListLe_total : ∀ as bs : List Char,
    charListLe as bs = true ∨ charListLe bs as = true := by
  intro as
  induction as with
  | nil => intro bs; left; cases bs <;> rfl
  | cons a as ih =>
    intro bs
    cases bs with
    | nil => right; rfl
    | cons b bs =>
      rcases lt_trichotomy a b with h | h | h
      · left; simp [charListLe, h]
      · subst h
        rcases ih bs with h2 | h2
        · left; simp [charListLe, lt_irrefl, h2]
        · right; simp [charListLe, lt_irrefl, h2]
      · right; simp [charListLe, h]

theorem charListLe_trans : ∀ as bs cs : List Char,
    charListLe as bs = true → charListLe bs cs = true → charListLe as cs = true := by
  intro as
  induction as with
  | nil => intro bs cs _ _; cases cs <;> simp [charListLe]
  | cons a as ih =>
    intro bs cs h1 h2
    cases bs with
    | nil => simp [charListLe] at h1
    | cons b bs =>
      cases cs with
      | nil => simp [charListLe] at h2
      | cons c cs =>
        by_cases hab : a < b
        · by_cases hbc : b < c
          · simp [charListLe, lt_trans hab hbc]
          · by_cases hcb : c < b
            · simp [charListLe, hbc, hcb] at h2
            · have hbceq : b = c := le_antisymm (not_lt.mp hcb) (not_lt.mp hbc)
              subst hbceq
              simp [charListLe, hab]
        · by_cases hba : b < a
          · simp [charListLe, hab, hba] at h1
          · have habeq : a = b := le_antisymm (not_lt.mp hba) (not_lt.mp hab)
            subst habeq
            simp only [charListLe, lt_irrefl, if_false] at h1
            by_cases hac : a < c
            · simp [charListLe, hac]
            · by_cases hca : c < a
              · simp [charListLe, hac, hca] at h2
              · simp only [charListLe, hac, hca, if_false] at h2 ⊢
                exact ih bs cs h1 h2

theorem sortLeB_total (a b : TimelineItem) : sortLeB a b = true ∨ sortLeB b a = true := by
  unfold sortLeB
  rcases lt_trichotomy (sortKey a).1 (sortKey b).1 with h | h | h
  · left; simp [h]
  · rcases charListLe_total (sortKey a).2.data (sortKey b).2.data with h2 | h2
    · left; simp [h, lt_irrefl, pyStrLe, h2]
    · right; simp [h, lt_irrefl, pyStrLe, h2]
  · right; simp [h]

theorem sortLeB_trans (a b c : TimelineItem) :
    sortLeB a b = true → sortLeB b c = true → sortLeB a c = true := by
  unfold sortLeB
  intro h1 h2
  by_cases hab : (sortKey a).1 < (sortKey b).1
  · by_cases hbc : (sortKey b).1 < (sortKey c).1
    · simp [lt_trans hab hbc]
    · by_cases hbceq : (sortKey b).1 = (sortKey c).1
      · simp [hbceq ▸ hab]
      · simp [hbc, hbceq] at h2
  · by_cases habeq : (sortKey a).1 = (sortKey b).1
    · by_cases hbc : (sortKey b).1 < (sortKey c).1
      · have hac : (sortKey a).1 < (sortKey c).1 := by rw [habeq]; exact hbc
        simp [hac]
      · by_cases hbceq : (sortKey b).1 = (sortKey c).1
        · have hac : (sortKey a).1 = (sortKey c).1 := habeq.trans hbceq
          rw [if_neg hab, if_pos habeq] at h1
          rw [if_neg hbc, if_pos hbceq] at h2
          have hnac : ¬ (sortKey a).1 < (sortKey c).1 := by rw [hac]; exact lt_irrefl _
          rw [if_neg hnac, if_pos hac]
          unfold pyStrLe at h1 h2 ⊢
          exact charListLe_trans _ _ _ h1 h2
        · simp [hbc, hbceq] at h2
    · simp [hab, habeq] at h1

theorem dictGet?_mem {κ β : Type} [DecidableEq κ] :
    ∀ (m : List (κ × β)) (k : κ) (v : β), dictGet? m k = some v → ∃ kv ∈ m, kv.2 = v := by
  intro m
  induction m with
  | nil => intro k v h; simp [dictGet?] at h
  | cons a rest ih =>
    intro k v h
    obtain ⟨k0, v0⟩ := a
    rw [dictGet?] at h
    by_cases hk : k0 = k
    · rw [if_pos hk] at h
      exact ⟨(k0, v0), List.mem_cons_self _ _, by simpa using h⟩
    · rw [if_neg hk] at h
      obtain ⟨kv, hmem, hv⟩ := ih k v h
      exact ⟨kv, List.mem_cons_of_mem _ hmem, hv⟩

theorem dictSet_forall {κ β : Type} [DecidableEq κ] (P : β → Prop) :
    ∀ (m : List (κ × β)) (k : κ) (v : β),
    (∀ kv ∈ m, P kv.2) → P v → ∀ kv ∈ dictSet m k v, P kv.2 := by
  intro m
  induction m with
  | nil => intro k v _ hv kv hkv; simp [dictSet] at hkv; rw [hkv]; exact hv
  | cons a rest ih =>
    intro k v hm hv kv hkv
    obtain ⟨k0, v0⟩ := a
    rw [dictSet] at hkv
    by_cases hk : k0 = k
    · rw [if_pos hk] at hkv
      rcases List.mem_cons.mp hkv with h | h
      · rw [h]; exact hv
      · exact hm kv (List.mem_cons_of_mem _ h)
    · rw [if_neg hk] at hkv
      rcases List.mem_cons.mp hkv with h | h
      · rw [h]; exact hm (k0, v0) (List.mem_cons_self _ _)
      · exact ih k v (fun x hx => hm x (List.mem_cons_of_mem _ hx)) hv kv h

theorem foldl_dictSet_forall {κ : Type} [DecidableEq κ] (P : TimelineItem → Prop)
    (key : TimelineItem → κ) :
    ∀ (items : List TimelineItem) (m : List (κ × TimelineItem)),
    (∀ kv ∈ m, P kv.2) → (∀ i ∈ items, P i) →
    ∀ kv ∈ items.foldl (fun m item => dictSet m (key item) item) m, P kv.2 := by
  intro items
  induction items with
  | nil => intro m hm _ kv hkv; exact hm kv hkv
  | cons i rest ih =>
    intro m hm hitems kv hkv
    rw [List.foldl_cons] at hkv
    exact ih (dictSet m (key i) i)
      (dictSet_forall P m (key i) i hm (hitems i (List.mem_cons_self _ _)))
      (fun x hx => hitems x (List.mem_cons_of_mem _ hx)) kv hkv

theorem foldl_pdfmerge_forall {κ : Type} [DecidableEq κ] (P : TimelineItem → Prop)
    (key : TimelineItem → κ) (f : TimelineItem → TimelineItem → TimelineItem)
    (hf : ∀ e x, P e → P (f e x)) :
    ∀ (items : List TimelineItem) (m : List (κ × TimelineItem)),
    (∀ kv ∈ m, P kv.2) → (∀ i ∈ items, P i) →
    ∀ kv ∈ items.foldl (fun m item =>
        match dictGet? m (key item) with
        | some existing => dictSet m (key item) (f existing item)
        | none => m ++ [(key item, item)]) m, P kv.2 := by
  intro items
  induction items with
  | nil => intro m hm _ kv hkv; exact hm kv hkv
  | cons i rest ih =>
    intro m hm hitems kv hkv
    rw [List.foldl_cons] at hkv
    have hstep : ∀ kv ∈ (match dictGet? m (key i) with
        | some existing => dictSet m (key i) (f existing i)
        | none => m ++ [(key i, i)]), P kv.2 := by
      cases hget : dictGet? m (key i) with
      | some existing =>
        simp only [hget]
        obtain ⟨kv0, hkv0, hv0⟩ := dictGet?_mem m (key i) existing hget
        exact dictSet_forall P m (key i) (f existing i) hm (hf existing i (hv0 ▸ hm kv0 hkv0))
      | none =>
        simp only [hget]
        intro kv hkv
        rcases List.mem_append.mp hkv with h | h
        · exact hm kv h
        · simp at h; rw [h]; exact hitems i (List.mem_cons_self _ _)
    exact ih _ hstep (fun x hx => hitems x (List.mem_cons_of_mem _ hx)) kv hkv

theorem merge_timelines_forall (P : TimelineItem → Prop)
    (hextend : ∀ e x, P e → P (mergeExisting e x))
    (pdf_items openf1_items : List TimelineItem)
    (hpdf : ∀ i ∈ pdf_items, P i) (hof : ∀ i ∈ openf1_items, P i) :
    ∀ e ∈ merge_timelines pdf_items openf1_items, P e := by
  intro e he
  unfold merge_timelines at he
  have he2 := (List.perm_insertionSort sortRel _).mem_iff.mp he
  obtain ⟨kv, hkv, hkve⟩ := List.mem_map.mp he2
  have h0 : ∀ kv ∈ (List.foldl (fun m item => dictSet m (mergeKey item) item)
      ([] : List ((Option Int × String × String) × TimelineItem)) openf1_items), P kv.2 :=
    foldl_dictSet_forall P mergeKey openf1_items [] (by intro kv hkv; simp at hkv) hof
  have h1 := foldl_pdfmerge_forall P mergeKey mergeExisting hextend pdf_items _ h0 hpdf kv hkv
  rw [hkve] at h1
  exact h1

theorem impact_sc_frozen (item : TimelineItem) (pd : List PitRec) :
    frozenFields (impact_sc item pd) = frozenFields item := by
  unfold impact_sc
  dsimp only
  split <;> rfl

theorem impactItem_frozen (laps_data : Option (List LapRec))
    (pit_data : Option (List PitRec)) (i : TimelineItem) :
    frozenFields (impactItem laps_data pit_data i) = frozenFields i := by
  unfold impactItem
  repeat' split
  all_goals first
    | rfl
    | exact impact_sc_frozen _ _

theorem stintPairsAux_pair (driver : String) (a b : StintRec) (rest : List StintRec)
    (acc : List TimelineItem) :
    stintPairsAux driver (a :: b :: rest) acc = .error acc := rfl

theorem stintDriversAux_fixed :
    ∀ (groups : List (String × List StintRec)) (acc : List TimelineItem),
    stintDriversAux groups acc = .ok acc ∨ stintDriversAux groups acc = .error acc := by
  intro groups
  induction groups with
  | nil => intro acc; left; rfl
  | cons g rest ih =>
    intro acc
    obtain ⟨driver, ds⟩ := g
    rw [stintDriversAux]
    by_cases hlen : ds.length > 1
    · rw [if_pos hlen]
      match ds, hlen with
      | a :: b :: ds, _ =>
        rw [stintPairsAux_pair]
        right; rfl
    · rw [if_neg hlen]
      exact ih acc

theorem stintRun_empty (groups : List (String × List StintRec)) :
    (match stintDriversAux groups [] with
     | .ok xs => xs
     | .error xs => xs) = ([] : List TimelineItem) := by
  rcases stintDriversAux_fixed groups [] with h | h <;> simp [h]

theorem extract_stint_events_empty (c : OpenF1Client) (year : Int)
    (gp_name session_type : String) :
    (extract_stint_events c year gp_name session_type).1 = [] := by
  unfold extract_stint_events
  split
  · rfl
  split
  · rfl
  split
  · rfl
  exact stintRun_empty _

/- ---------------------------------------------------------------------------
Claim theorems
--------------------------------------------------------------------------- -/

/-- C1: the spec says each driver with at least two stints yields one
STRATEGY_CHANGE event per consecutive stint transition.  The code cannot do
this: `TimelineEventType` has no `STRATEGY` member, the `AttributeError`
raised while building the first transition item is swallowed by the
extractor's `except`, and the stint extractor returns zero events — both at
the concrete failing input (driver VER with two stints) and for every client
and session. -/
theorem C1_stint_events_never_emitted :
    tetAttr "STRATEGY" = none ∧
    (c1_client.get_stints "9158").length = 2 ∧
    (extract_stint_events c1_client 2024 "Bahrain" "RACE").1 = [] ∧
    (∀ (c : OpenF1Client) (year : Int) (gp_name session_type : String),
      (extract_stint_events c year gp_name session_type).1 = []) :=
  ⟨rfl, rfl, extract_stint_events_empty c1_client 2024 "Bahrain" "RACE",
   fun c year gp_name session_type =>
     extract_stint_events_empty c year gp_name session_type⟩

/-- C7: the race-control classifier is the first-match-wins cascade with
priority RED_FLAG > SAFETY_CAR (excluding "virtual") > VIRTUAL_SAFETY_CAR >
YELLOW_FLAG > WEATHER > INCIDENT > INFO over the upper-cased message, and in
particular any message containing "red flag" — even one also containing
"yellow flag" — classifies RED_FLAG. -/
theorem C7_classification_priority :
    ∀ raw : String,
    classify_rc (pyUpper raw) = specRcClassify raw ∧
    (strContains (pyUpper raw) "RED FLAG" = true →
      classify_rc (pyUpper raw) = TimelineEventType.RED_FLAG) := by
  intro raw
  constructor
  · rfl
  · intro h
    unfold classify_rc
    rw [if_pos h]

/-- Witness for C7: a message containing both "red flag" and "yellow flag"
classifies RED_FLAG. -/
theorem C7_witness :
    classify_rc (pyUpper "Red flag deployed, yellow flag in sector 2 withdrawn") =
      TimelineEventType.RED_FLAG :=
  (C7_classification_priority "Red flag deployed, yellow flag in sector 2 withdrawn").2
    (by decide)

/-- C10: when two telemetry-derived events share a merge key, the dictionary
assignment of `merge_timelines` keeps only the one inserted last; the earlier
event (and its evidence) is discarded, not unioned. -/
theorem C10_last_openf1_wins :
    ∀ a b : TimelineItem, mergeKey a = mergeKey b →
    merge_timelines [] [a, b] = [b] := by
  intro a b hk
  unfold merge_timelines
  simp only [List.foldl_cons, List.foldl_nil]
  rw [← hk]
  simp [dictSet, dictGet?, List.insertionSort, List.orderedInsert]

/-- Witness for C10: two same-key pit events at lap 22 — only the second
survives, with only its own evidence record. -/
theorem C10_witness : merge_timelines [] [c10_a, c10_b] = [c10_b] :=
  C10_last_openf1_wins c10_a c10_b (by decide)

/-- C3 counterexample: two same-key document events with confidences "Low"
(inserted first) and "Medium" (inserted second) merge to "Low", not to the
higher "Medium" — confidence promotion only fires on "High"
(timeline.py:903-904), so the merge is order-dependent on Medium/Low pairs. -/
theorem C3_counterexample :
    c3_low.confidence = "Low" ∧ c3_med.confidence = "Medium" ∧
    mergeKey c3_low = mergeKey c3_med ∧
    (merge_timelines [c3_low, c3_med] []).map (fun e => e.confidence) = ["Low"] :=
  ⟨rfl, rfl, by decide, by decide⟩

/-- C3 amended: a same-key collision merges the two provenance lists by
concatenation, and the confidence of the first-inserted event is kept unless
the later (document) event is "High", in which case the result is "High";
this holds both when the first event is telemetry-derived and when both are
document-derived. -/
theorem C3_merge_union_confidence :
    ∀ a b : TimelineItem, mergeKey a = mergeKey b →
    merge_timelines [b] [a] = [mergeExisting a b] ∧
    merge_timelines [a, b] [] = [mergeExisting a b] := by
  intro a b hk
  constructor
  · unfold merge_timelines
    simp only [List.foldl_cons, List.foldl_nil]
    rw [← hk]
    simp [dictSet, dictGet?, List.insertionSort, List.orderedInsert]
  · unfold merge_timelines
    simp only [List.foldl_cons, List.foldl_nil]
    rw [← hk]
    simp [dictSet, dictGet?, List.insertionSort, List.orderedInsert]

/-- Witness for C3: the document safety-car event merges into the telemetry
one (and the same result arises when both arrive through the document list),
yielding the concatenated provenance and the first event's confidence
"High". -/
theorem C3_witness :
    mergeKey c3_sc_openf1 = mergeKey c3_sc_pdf ∧
    merge_timelines [c3_sc_pdf] [c3_sc_openf1] =
      [mergeExisting c3_sc_openf1 c3_sc_pdf] ∧
    merge_timelines [c3_sc_openf1, c3_sc_pdf] [] =
      [mergeExisting c3_sc_openf1 c3_sc_pdf] :=
  ⟨by decide,
   (C3_merge_union_confidence c3_sc_openf1 c3_sc_pdf (by decide)).1,
   (C3_merge_union_confidence c3_sc_openf1 c3_sc_pdf (by decide)).2⟩

/-- C6 counterexample: an event without a lap (sentinel key 999999) sorts
before a numbered-lap event with lap 1000000, so lap-less events do not sort
after all numbered-lap events; and since the lap-999 result sentinel is a
numbered lap below 999999, lap-less events sort after it, not before. -/
theorem C6_counterexample :
    c6_nolap.lap = none ∧ c6_biglap.lap = some 1000000 ∧
    (merge_timelines [] [c6_nolap, c6_biglap]).map (fun e => e.lap) =
      [none, some 1000000] :=
  ⟨rfl, rfl, by decide⟩

/-- C6 amended: the merged timeline is ordered (pairwise) by the key
`(lap if present else 999999, event-kind value)`: ascending by lap with the
kind value breaking ties, lap-less events taking the sentinel 999999 — which
places them after the lap-999 result sentinel, not before it. -/
theorem C6_merge_sorted_by_lap_key :
    ∀ pdf_items openf1_items : List TimelineItem,
    List.Pairwise sortRel (merge_timelines pdf_items openf1_items) := by
  intro pdf_items openf1_items
  unfold merge_timelines
  haveI : IsTotal TimelineItem sortRel := ⟨fun a b => sortLeB_total a b⟩
  haveI : IsTrans TimelineItem sortRel := ⟨fun a b c => sortLeB_trans a b c⟩
  exact List.sorted_insertionSort sortRel _

/-- C8 counterexample: `compute_impact` does not leave impacted participants
unchanged — a safety-car event with no impacted drivers gains the drivers who
pitted within two laps when pit data is supplied (timeline.py:955). -/
theorem C8_counterexample :
    c8_sc.impacted_drivers = [] ∧
    (compute_impact [c8_sc] none (some [c8_pit])).map (fun e => e.impacted_drivers) =
      [["VER"]] :=
  ⟨rfl, by decide⟩

/-- C8 amended: the impact stage never removes or reorders events and leaves
lap, timestamp, kind, title, description, citations and evidence unchanged;
besides `impact_summary` and `confidence`, the only further field it can
touch is `impacted_drivers`, and only on safety-car kinds. -/
theorem C8_impact_frame :
    (∀ (tl : List TimelineItem) (laps : Option (List LapRec))
        (pit : Option (List PitRec)),
      (compute_impact tl laps pit).map frozenFields = tl.map frozenFields) ∧
    (∀ (laps : Option (List LapRec)) (pit : Option (List PitRec)) (i : TimelineItem),
      ([TimelineEventType.SAFETY_CAR, TimelineEventType.VIRTUAL_SC].contains
        i.event_type) = false →
      (impactItem laps pit i).impacted_drivers = i.impacted_drivers) := by
  constructor
  · intro tl laps pit
    unfold compute_impact
    rw [List.map_map]
    exact List.map_congr_left (fun x _ => impactItem_frozen laps pit x)
  · intro laps pit i hni
    unfold impactItem
    repeat' split
    all_goals first
      | rfl
      | simp_all

/-- Witness for C8: the yellow-flag event (outside the safety-car pair) keeps
its impacted drivers through the impact stage. -/
theorem C8_witness :
    ([TimelineEventType.SAFETY_CAR, TimelineEventType.VIRTUAL_SC].contains
      c8_yellow.event_type) = false ∧
    (impactItem none none c8_yellow).impacted_drivers = c8_yellow.impacted_drivers :=
  ⟨by decide, C8_impact_frame.2 none none c8_yellow (by decide)⟩

/-- C9 counterexample: a telemetry weather event carries no lap
(timeline.py:1156), so `compute_impact` skips it at `if not item.lap`
(timeline.py:942) — its summary stays the extractor's wording instead of the
generic "track condition change" summary the claim requires. -/
theorem C9_counterexample :
    (compute_impact ((extract_weather_events c9_client 2023 "Spa" "RACE").1) none none).map
      (fun e => (e.lap, e.event_type, e.impacted_drivers, e.impact_summary)) =
    [(none, TimelineEventType.WEATHER, [],
      "Weather change may affect tire strategy")] := by decide

/-- C9 amended: only for events with a truthy (present, non-zero) lap, no
impacted participants, and a kind outside safety-car, pit-stop, incident and
pace-change does the impact stage set the generic track-condition summary
with confidence High; lap-less events — including every telemetry weather
event — are left untouched. -/
theorem C9_generic_impact_requires_lap :
    ∀ (laps : Option (List LapRec)) (pit : Option (List PitRec))
      (i : TimelineItem) (n : Int),
    i.lap = some n → n ≠ 0 → i.impacted_drivers = [] →
    ([TimelineEventType.SAFETY_CAR, TimelineEventType.VIRTUAL_SC].contains
      i.event_type) = false →
    i.event_type ≠ TimelineEventType.PIT_STOP →
    ([TimelineEventType.INCIDENT, TimelineEventType.PACE_CHANGE,
      TimelineEventType.PIT_STOP].contains i.event_type) = false →
    impactItem laps pit i =
      { i with impact_summary := "Track condition change; check driver strategies",
               confidence := "High" } := by
  intro laps pit i n hlap hn himp hsc hpit hinc
  simp only [List.contains_eq_any_beq, List.any_eq_false, beq_iff_eq,
    List.mem_cons, List.mem_singleton, forall_eq_or_imp, forall_eq] at hsc hinc
  unfold impactItem
  rw [hlap]
  simp [pyIntTruthy, hn, hsc.1, hsc.2, hpit, hinc.1, hinc.2.1, himp]

/-- Witness for C9: a weather event at lap 5 with no participants receives
the generic summary and High confidence. -/
theorem C9_witness :
    impactItem none none c9_w5 =
      { c9_w5 with impact_summary := "Track condition change; check driver strategies",
                   confidence := "High" } :=
  C9_generic_impact_requires_lap none none c9_w5 5 rfl (by decide) rfl
    (by decide) (by decide) (by decide)

/-- C2 counterexample: a document event whose retrieval finds no chunks enters
the final (merged, impact-annotated) timeline with zero citations and zero
evidence — the pipeline never enforces the claimed bound. -/
theorem C2_counterexample :
    (race_final_timeline [c2_item] [] none none).map
      (fun e => e.pdf_citations.length + e.openf1_evidence.length) = [0] := by decide

/-- C2 amended: the merge and impact stages preserve the evidence bound —
whenever every input event carries at least one citation or evidence record,
so does every event of the final timeline; the bound can only be violated by
document events that already enter with none. -/
theorem C2_final_events_keep_evidence :
    ∀ (pdf_items openf1_items : List TimelineItem)
      (laps : Option (List LapRec)) (pit : Option (List PitRec)),
    (∀ e ∈ pdf_items, 1 ≤ e.pdf_citations.length + e.openf1_evidence.length) →
    (∀ e ∈ openf1_items, 1 ≤ e.pdf_citations.length + e.openf1_evidence.length) →
    ∀ e ∈ race_final_timeline pdf_items openf1_items laps pit,
      1 ≤ e.pdf_citations.length + e.openf1_evidence.length := by
  intro pdf_items openf1_items laps pit hp ho e he
  unfold race_final_timeline compute_impact at he
  obtain ⟨x, hx, hxe⟩ := List.mem_map.mp he
  have hfr := impactItem_frozen laps pit x
  simp only [frozenFields, Prod.mk.injEq] at hfr
  have hcit : e.pdf_citations = x.pdf_citations := by
    rw [← hxe]; exact hfr.2.2.2.2.2.1
  have hev : e.openf1_evidence = x.openf1_evidence := by
    rw [← hxe]; exact hfr.2.2.2.2.2.2
  rw [hcit, hev]
  refine merge_timelines_forall
    (fun t => 1 ≤ t.pdf_citations.length + t.openf1_evidence.length)
    (fun ex y hy => ?_) pdf_items openf1_items hp ho x hx
  simp only [mergeExisting, List.length_append]
  omega

/-- Witness for C2: with a singleton cited document event as input, the final
timeline keeps the bound. -/
theorem C2_witness :
    (∀ e ∈ [c2_cited_item], 1 ≤ e.pdf_citations.length + e.openf1_evidence.length) ∧
    (∀ e ∈ race_final_timeline [c2_cited_item] [] none none,
      1 ≤ e.pdf_citations.length + e.openf1_evidence.length) :=
  ⟨by decide,
   C2_final_events_keep_evidence [c2_cited_item] [] none none (by decide) (by decide)⟩

/-- One step of the alternative-year loop that hits. -/
theorem altYearSearch_cons (c : OpenF1Client) (g : String) (y : Int)
    (rest : List Int) (s : Session) (ss : List Session)
    (h : c.search_sessions y (some g) none = s :: ss) :
    altYearSearch c g (y :: rest) =
      (some (y, s :: ss), [ApiCall.searchSessions y (some g) none]) := by
  unfold altYearSearch
  rw [h]

/-- One step of the alternative-year loop that misses. -/
theorem altYearSearch_skip (c : OpenF1Client) (g : String) (y : Int)
    (rest : List Int) (h : c.search_sessions y (some g) none = []) :
    altYearSearch c g (y :: rest) =
      ((altYearSearch c g rest).1,
       ApiCall.searchSessions y (some g) none :: (altYearSearch c g rest).2) := by
  conv_lhs => unfold altYearSearch
  rw [h]

/-- The success debug projection of `buildFromSession`: the resolution is
recorded as found, at the (possibly fallback-adopted) year. -/
theorem buildFromSession_debug (c : OpenF1Client) (year : Int)
    (gp_name session_type : String) (session : Session) (callsAcc : List ApiCall) :
    (buildFromSession c year gp_name session_type session callsAcc).debug.map
      (fun d => (d.session_found, d.detected_year)) = some (true, year) := by
  simp [buildFromSession]

/-- C4 counterexample: requested year 2022 with sessions only in 2021 — the
claim's hypothesis holds (nothing in 2022, a hit exactly one year earlier),
yet the resolution fails (`session_found = false`, detected year still 2022):
the fallback loop iterates the fixed years 2024, 2023, 2022
(timeline.py:266), never `year - 1 = 2021`. -/
theorem C4_counterexample :
    c4_client.search_sessions 2022 (some "Brazil") (some "RACE") = [] ∧
    c4_client.search_sessions 2022 (some "Brazil") none = [] ∧
    c4_client.search_sessions 2021 (some "Brazil") none = [c4_session] ∧
    (build_openf1_timeline c4_client ⟨some 2022, some "Brazil", some "RACE"⟩ none).debug.map
      (fun d => (d.session_found, d.detected_year)) = some (false, 2022) := by
  refine ⟨by decide, by decide, by decide, by decide⟩

/-- C4 amended: the fallback iterates the fixed years 2024, 2023, 2022 and
adopts the first hit.  Hence the resolved year equals `year - 1` exactly when
`year - 1` lies in that list (requested year 2025, 2024 or 2023), the
requested year matches nothing, and no fixed fallback year above `year - 1`
matches; outside those years the one-year-earlier session is never found. -/
theorem C4_fixed_fallback_years :
    ∀ (c : OpenF1Client) (g st : String) (y : Int) (d0 : Option DebugInfo),
    (y = 2025 ∨ y = 2024 ∨ y = 2023) →
    g ≠ "" → pyLower g ≠ "unknown" →
    c.search_sessions y (some g) (some st) = [] →
    c.search_sessions y (some g) none = [] →
    (∀ a ∈ ([2024, 2023, 2022] : List Int), y - 1 < a →
      c.search_sessions a (some g) none = []) →
    c.search_sessions (y - 1) (some g) none ≠ [] →
    (build_openf1_timeline c ⟨some y, some g, some st⟩ d0).debug.map
      (fun d => (d.session_found, d.detected_year)) = some (true, y - 1) := by
  intro c g st y d0 hy hg hunk h1 h2 hall hne
  have hy0 : ¬ (y = 0 ∨ g = "") := by
    rcases hy with rfl | rfl | rfl <;> simp [hg]
  unfold build_openf1_timeline
  simp only [Option.getD]
  rw [if_neg hy0, if_neg hunk]
  unfold buildResolved
  rw [h1, h2]
  rcases hy with rfl | rfl | rfl
  · -- y = 2025: the first fallback year 2024 = y - 1 hits
    have h24 := hne
    norm_num at h24
    cases hc : c.search_sessions 2024 (some g) none with
    | nil => exact absurd hc h24
    | cons s ss =>
      rw [altYearSearch_cons c g 2024 [2023, 2022] s ss hc]
      simp only []
      rw [buildFromSession_debug]
      norm_num
  · -- y = 2024: fallback 2024 misses (= requested year), 2023 = y - 1 hits
    have h24 : c.search_sessions 2024 (some g) none = [] := h2
    have h23 := hne
    norm_num at h23
    cases hc : c.search_sessions 2023 (some g) none with
    | nil => exact absurd hc h23
    | cons s ss =>
      rw [altYearSearch_skip c g 2024 [2023, 2022] h24,
          altYearSearch_cons c g 2023 [2022] s ss hc]
      simp only []
      rw [buildFromSession_debug]
      norm_num
  · -- y = 2023: fallbacks 2024 and 2023 miss, 2022 = y - 1 hits
    have h24 : c.search_sessions 2024 (some g) none = [] := by
      have h := hall 2024 (by norm_num)
      norm_num at h
      exact h
    have h23 : c.search_sessions 2023 (some g) none = [] := h2
    have h22 := hne
    norm_num at h22
    cases hc : c.search_sessions 2022 (some g) none with
    | nil => exact absurd hc h22
    | cons s ss =>
      rw [altYearSearch_skip c g 2024 [2023, 2022] h24,
          altYearSearch_skip c g 2023 [2022] h23,
          altYearSearch_cons c g 2022 [] s ss hc]
      simp only []
      rw [buildFromSession_debug]
      norm_num

/-- Witness for C4: requested year 2025 with type-unfiltered sessions only in
2024 resolves to 2024 = 2025 - 1. -/
theorem C4_witness :
    (build_openf1_timeline c4w_client ⟨some 2025, some "Sao Paulo", some "RACE"⟩
      none).debug.map (fun d => (d.session_found, d.detected_year)) =
    some (true, 2024) := by
  have h := C4_fixed_fallback_years c4w_client "Sao Paulo" "RACE" 2025 none
    (Or.inl rfl) (by decide) (by decide) (by decide) (by decide) (by decide) (by decide)
  have h2 : (2025 : Int) - 1 = 2024 := by norm_num
  rw [← h2]
  exact h

/-- C5 counterexample: with gp name "unknown" the build returns zero events
and makes no telemetry call, but it records nothing in the diagnostics — the
builder's debug state stays as it was (here: empty), so no
`session_found = false` diagnostic exists. -/
theorem C5_counterexample :
    (build_openf1_timeline c5_client ⟨some 2024, some "unknown", some "RACE"⟩
      none).events = [] ∧
    (build_openf1_timeline c5_client ⟨some 2024, some "unknown", some "RACE"⟩
      none).calls = [] ∧
    (build_openf1_timeline c5_client ⟨some 2024, some "unknown", some "RACE"⟩
      none).debug = none := by
  refine ⟨rfl, rfl, rfl⟩

/-- C5 amended: when the metadata is missing or falsy or names the event
"unknown" (case-insensitively), the build fails fast: zero events, no
telemetry call of any kind, and the builder's diagnostics left exactly as
they were. -/
theorem C5_failfast :
    ∀ (c : OpenF1Client) (meta : SessionMetadata) (d0 : Option DebugInfo),
    (meta.year = none ∨ meta.year = some 0 ∨ meta.gp_name = none ∨
      meta.gp_name = some "" ∨
      (∃ g, meta.gp_name = some g ∧ pyLower g = "unknown")) →
    build_openf1_timeline c meta d0 =
      { events := [], debug := d0, calls := [] } := by
  intro c meta d0 h
  obtain ⟨my, mg, mst⟩ := meta
  unfold build_openf1_timeline
  rcases h with h | h | h | h | ⟨g, hg, hlow⟩
  · subst h; rfl
  · subst h
    cases mg with
    | none => rfl
    | some g => simp
  · subst h
    cases my with
    | none => rfl
    | some y => rfl
  · subst h
    cases my with
    | none => rfl
    | some y => simp
  · subst hg
    cases my with
    | none => rfl
    | some y =>
      by_cases hy0 : y = 0 ∨ g = ""
      · simp [hy0]
      · simp [hy0, hlow]

/-- Witness for C5: gp name "Unknown" (capitalised) fail-fasts with unchanged
(empty) diagnostics, zero events, zero calls. -/
theorem C5_witness :
    build_openf1_timeline c5_client ⟨some 2024, some "Unknown", some "RACE"⟩ none =
      { events := [], debug := none, calls := [] } :=
  C5_failfast c5_client ⟨some 2024, some "Unknown", some "RACE"⟩ none
    (Or.inr (Or.inr (Or.inr (Or.inr ⟨"Unknown", rfl, by decide⟩))))
